import Mathlib

/-!
# simple_atm_controller: the session controller and its operation contracts

A shallow embedding of `src/src/atm_controller.cpp` and of the declarations in
`src/include/simple_atm_controller/atm_controller.hpp`.

* `Card`, `Account`, `State` and `ATMController` carry the fields of the C++
  declarations under the same names.
* The C++ `int` is a 32-bit two's-complement integer.  Values are kept as
  mathematical integers (`Int`); the two compound assignments on the cached
  balance (`+=`, `-=`) reduce their result into the `int` range with `wrapInt`.
* `IBankService` is an interface of five virtual functions.  An implementation
  is an arbitrary, possibly stateful object, so each function takes the bank's
  hidden state and gives back an `Answer` (a returned value, or an exception
  thrown by the implementation) together with the bank's next state.
* Exceptions do not roll the controller back, so every member function returns
  its result *together with* the controller after the call.
* The `World` holds the bank's state and a chronological trace with one entry
  per call into the bank service (what a gmock object records) and one entry per
  completed controller operation.
-/

/-! ## Values -/

/-- The struct `Card` of atm_controller.hpp. -/
structure Card where
  cardNumber : String
  deriving DecidableEq, Repr

/-- The struct `Account` of atm_controller.hpp; `balance` is a C++ `int`. -/
structure Account where
  accountId : String
  balance : Int
  deriving DecidableEq, Repr

/-- Smallest value of the C++ `int` type. -/
def INT_MIN : Int := -2147483648

/-- Largest value of the C++ `int` type. -/
def INT_MAX : Int := 2147483647

/-- Membership in the C++ `int` type. -/
def isCInt (x : Int) : Prop := INT_MIN ≤ x ∧ x ≤ INT_MAX

instance (x : Int) : Decidable (isCInt x) := by
  unfold isCInt; infer_instance

/-- Reduction of a mathematical integer into the 32-bit two's-complement range,
which is what storing the result of `+=` or `-=` into an `int` leaves there. -/
def wrapInt (x : Int) : Int := (x + 2147483648) % 4294967296 - 2147483648

/-- The enum `ATMController::State`. -/
inductive State where
  | IDLE
  | CARD_INSERTED
  | PIN_VERIFIED
  | ACCOUNT_SELECTED
  deriving DecidableEq, Repr

/-- The exceptions that leave a controller member function:
`std::invalid_argument` (constructor), `std::runtime_error` with its message
(state checks), and an exception thrown inside the bank service, which the
controller does not catch. -/
inductive Error where
  | invalid_argument (what : String)
  | runtime_error (what : String)
  | bank_exception
  deriving DecidableEq, Repr

/-- True exactly for the `std::runtime_error` raised by a state check. -/
def Error.isInvalidState : Error → Bool
  | .runtime_error _ => true
  | _ => false

/-- True exactly for `std::invalid_argument`. -/
def Error.isInvalidArgument : Error → Bool
  | .invalid_argument _ => true
  | _ => false

/-- The result of a member function: a returned value or a thrown exception. -/
inductive Result (α : Type) where
  | ok (value : α)
  | error (e : Error)
  deriving DecidableEq, Repr

/-- The call threw the `std::runtime_error` of a state check. -/
def Result.failsInvalidState {α : Type} : Result α → Bool
  | .error e => e.isInvalidState
  | .ok _ => false

/-- The call threw `std::invalid_argument`. -/
def Result.failsInvalidArgument {α : Type} : Result α → Bool
  | .error e => e.isInvalidArgument
  | .ok _ => false

/-- The call returned normally. -/
def Result.succeeds {α : Type} : Result α → Bool
  | .ok _ => true
  | .error _ => false

/-! ## The bank service -/

/-- What one call into the bank service yields. -/
inductive Answer (α : Type) where
  | returned (value : α)
  | threw
  deriving DecidableEq, Repr

/-- The interface `IBankService`: five pure virtual functions.  `β` is the
hidden state of the implementing object. -/
structure IBankService (β : Type) where
  verifyPin : β → Card → String → Answer Bool × β
  getAccounts : β → Card → Answer (List Account) × β
  getBalance : β → String → Answer Int × β
  deposit : β → String → Int → Answer Bool × β
  withdraw : β → String → Int → Answer Bool × β

/-- One invocation of a bank-service function, with its arguments. -/
inductive BankCall where
  | verifyPin (card : Card) (pin : String)
  | getAccounts (card : Card)
  | getBalance (accountId : String)
  | deposit (accountId : String) (amount : Int)
  | withdraw (accountId : String) (amount : Int)
  deriving DecidableEq, Repr

/-- The banking operations proper: balance lookup, deposit, withdrawal. -/
def BankCall.isBanking : BankCall → Bool
  | .getBalance _ => true
  | .deposit _ _ => true
  | .withdraw _ _ => true
  | _ => false

/-! ## Operations and traces -/

/-- A call of a public member function of `ATMController`, with its arguments. -/
inductive Op where
  | insertCardAndVerifyPin (card : Card) (pin : String)
  | getAccounts
  | selectAccount (account : Account)
  | getSelectedAccount
  | seeBalance
  | deposit (amount : Int)
  | withdraw (amount : Int)
  deriving DecidableEq, Repr

/-- The value a member function hands back to its caller. -/
inductive Value where
  | bool (b : Bool)
  | accounts (l : List Account)
  | unit
  | account (a : Account)
  | int (i : Int)
  deriving DecidableEq, Repr

/-- An entry of the trace: a call into the bank service, or the completion of a
controller operation with what the caller observed. -/
inductive Event where
  | call (c : BankCall)
  | done (op : Op) (result : Result Value)
  deriving DecidableEq, Repr

/-- Everything outside the controller: the bank's state and the trace so far. -/
structure World (β : Type) where
  bank : β
  trace : List Event

/-- The world after a call into the bank service: the bank has moved to `next`
and the call is appended to the trace. -/
def World.invoked {β : Type} (w : World β) (c : BankCall) (next : β) : World β :=
  { bank := next, trace := w.trace ++ [Event.call c] }

/-! ## The controller -/

/-- The data members of `ATMController`.  `m_pBankService` is never null in a
constructed object: the constructor throws otherwise. -/
structure ATMController (β : Type) where
  m_CurrentState : State
  m_pBankService : IBankService β
  m_CurrentCard : Card
  m_SelectedAccount : Account

/-- A member function's outcome: the result seen by the caller, the controller
after the call and the world after the call. -/
structure Ret (α β : Type) where
  result : Result α
  self : ATMController β
  world : World β

/-- The constructor `ATMController::ATMController` (atm_controller.cpp 3-10),
named `new` here because a member named like its structure would shadow the
type.  A null `shared_ptr` is `none`.
`m_CurrentCard` is default-constructed (empty string).  `m_SelectedAccount` is
default-initialised: its `accountId` is the empty string and its `int balance`
is left uninitialised, so its value is whatever `indeterminate` happens to be. -/
def ATMController.new {β : Type} (bank_service : Option (IBankService β))
    (indeterminate : Int) : Result (ATMController β) :=
  match bank_service with
  | none => .error (.invalid_argument "Bank service cannot be null")
  | some svc =>
    .ok { m_CurrentState := State.IDLE
          m_pBankService := svc
          m_CurrentCard := { cardNumber := "" }
          m_SelectedAccount := { accountId := "", balance := indeterminate } }

/-- The member `insertCardAndVerifyPin` (atm_controller.cpp 12-32). -/
def ATMController.insertCardAndVerifyPin {β : Type} (self : ATMController β) (w : World β)
    (card : Card) (pin : String) : Ret Bool β :=
  let self1 := { self with m_CurrentState := State.CARD_INSERTED, m_CurrentCard := card }
  let r := self1.m_pBankService.verifyPin w.bank self1.m_CurrentCard pin
  let w1 := w.invoked (.verifyPin self1.m_CurrentCard pin) r.2
  match r.1 with
  | .threw => { result := .error .bank_exception, self := self1, world := w1 }
  | .returned isVerified =>
    if isVerified then
      { result := .ok true, self := { self1 with m_CurrentState := State.PIN_VERIFIED }, world := w1 }
    else
      { result := .ok false, self := { self1 with m_CurrentState := State.IDLE }, world := w1 }

/-- The member `getAccounts` (atm_controller.cpp 34-43). -/
def ATMController.getAccounts {β : Type} (self : ATMController β) (w : World β) :
    Ret (List Account) β :=
  if self.m_CurrentState ≠ State.PIN_VERIFIED ∧ self.m_CurrentState ≠ State.ACCOUNT_SELECTED then
    { result := .error (.runtime_error "PIN not verified. Cannot get accounts"), self := self, world := w }
  else
    let r := self.m_pBankService.getAccounts w.bank self.m_CurrentCard
    let w1 := w.invoked (.getAccounts self.m_CurrentCard) r.2
    match r.1 with
    | .threw => { result := .error .bank_exception, self := self, world := w1 }
    | .returned accounts => { result := .ok accounts, self := self, world := w1 }

/-- The member `selectAccount` (atm_controller.cpp 45-55). -/
def ATMController.selectAccount {β : Type} (self : ATMController β) (w : World β)
    (account : Account) : Ret Unit β :=
  if self.m_CurrentState ≠ State.PIN_VERIFIED ∧ self.m_CurrentState ≠ State.ACCOUNT_SELECTED then
    { result := .error (.runtime_error "PIN not verified. Cannot get accounts"), self := self, world := w }
  else
    { result := .ok (),
      self := { self with m_SelectedAccount := account, m_CurrentState := State.ACCOUNT_SELECTED },
      world := w }

/-- The const member `getSelectedAccount` (atm_controller.cpp 57-60). -/
def ATMController.getSelectedAccount {β : Type} (self : ATMController β) (w : World β) :
    Ret Account β :=
  { result := .ok self.m_SelectedAccount, self := self, world := w }

/-- The member `seeBalance` (atm_controller.cpp 62-73). -/
def ATMController.seeBalance {β : Type} (self : ATMController β) (w : World β) : Ret Int β :=
  if self.m_CurrentState ≠ State.ACCOUNT_SELECTED then
    { result := .error (.runtime_error "Account not selected. Cannot check balance."),
      self := self, world := w }
  else
    let r := self.m_pBankService.getBalance w.bank self.m_SelectedAccount.accountId
    let w1 := w.invoked (.getBalance self.m_SelectedAccount.accountId) r.2
    match r.1 with
    | .threw => { result := .error .bank_exception, self := self, world := w1 }
    | .returned balance =>
      let self1 := { self with m_SelectedAccount := { self.m_SelectedAccount with balance := balance } }
      { result := .ok self1.m_SelectedAccount.balance, self := self1, world := w1 }

/-- The member `deposit` (atm_controller.cpp 75-95). -/
def ATMController.deposit {β : Type} (self : ATMController β) (w : World β) (amount : Int) :
    Ret Bool β :=
  if self.m_CurrentState ≠ State.ACCOUNT_SELECTED then
    { result := .error (.runtime_error "Account not selected. Cannot deposit."),
      self := self, world := w }
  else if amount ≤ 0 then
    { result := .ok false, self := self, world := w }
  else
    let r := self.m_pBankService.deposit w.bank self.m_SelectedAccount.accountId amount
    let w1 := w.invoked (.deposit self.m_SelectedAccount.accountId amount) r.2
    match r.1 with
    | .threw => { result := .error .bank_exception, self := self, world := w1 }
    | .returned success =>
      if success then
        { result := .ok success,
          self := { self with m_SelectedAccount :=
                      { self.m_SelectedAccount with
                        balance := wrapInt (self.m_SelectedAccount.balance + amount) } },
          world := w1 }
      else
        { result := .ok success, self := self, world := w1 }

/-- The member `withdraw` (atm_controller.cpp 97-117). -/
def ATMController.withdraw {β : Type} (self : ATMController β) (w : World β) (amount : Int) :
    Ret Bool β :=
  if self.m_CurrentState ≠ State.ACCOUNT_SELECTED then
    { result := .error (.runtime_error "Account not selected. Cannot withdraw."),
      self := self, world := w }
  else if amount ≤ 0 then
    { result := .ok false, self := self, world := w }
  else
    let r := self.m_pBankService.withdraw w.bank self.m_SelectedAccount.accountId amount
    let w1 := w.invoked (.withdraw self.m_SelectedAccount.accountId amount) r.2
    match r.1 with
    | .threw => { result := .error .bank_exception, self := self, world := w1 }
    | .returned success =>
      if success then
        { result := .ok success,
          self := { self with m_SelectedAccount :=
                      { self.m_SelectedAccount with
                        balance := wrapInt (self.m_SelectedAccount.balance - amount) } },
          world := w1 }
      else
        { result := .ok success, self := self, world := w1 }

/-! ## Sequences of operations -/

/-- Lifts a function over the returned value of a result. -/
def Result.map {α γ : Type} (f : α → γ) : Result α → Result γ
  | .ok a => .ok (f a)
  | .error e => .error e

/-- Closes an operation: the controller and world it leaves, with the completed
operation and what its caller observed appended to the trace. -/
def Ret.finish {α β : Type} (r : Ret α β) (op : Op) (f : α → Value) :
    ATMController β × World β :=
  (r.self, { bank := r.world.bank, trace := r.world.trace ++ [Event.done op (r.result.map f)] })

/-- One call of a public member function by the caller. -/
def ATMController.step {β : Type} (self : ATMController β) (w : World β) (op : Op) :
    ATMController β × World β :=
  match op with
  | .insertCardAndVerifyPin card pin => (self.insertCardAndVerifyPin w card pin).finish op Value.bool
  | .getAccounts => (self.getAccounts w).finish op Value.accounts
  | .selectAccount account => (self.selectAccount w account).finish op (fun _ => Value.unit)
  | .getSelectedAccount => (self.getSelectedAccount w).finish op Value.account
  | .seeBalance => (self.seeBalance w).finish op Value.int
  | .deposit amount => (self.deposit w amount).finish op Value.bool
  | .withdraw amount => (self.withdraw w amount).finish op Value.bool

/-- A finite sequence of calls, one after the other. -/
def ATMController.run {β : Type} (self : ATMController β) (w : World β) :
    List Op → ATMController β × World β
  | [] => (self, w)
  | op :: ops => (self.step w op).1.run (self.step w op).2 ops

/-- The trace entry is a completed `insertCardAndVerifyPin`, whatever its result. -/
def Event.isInsert : Event → Bool
  | .done (.insertCardAndVerifyPin _ _) _ => true
  | _ => false

/-- In the history `t`, the most recent completed `insertCardAndVerifyPin`
returned true. -/
def PinVerifiedIn (t : List Event) : Prop :=
  ∃ t1 t2 card pin,
    t = t1 ++ Event.done (.insertCardAndVerifyPin card pin) (.ok (.bool true)) :: t2 ∧
    ∀ e ∈ t2, e.isInsert = false

/-- In the history `t`, the most recent completed `insertCardAndVerifyPin`
returned true and a `selectAccount` has succeeded after it. -/
def Authorised (t : List Event) : Prop :=
  ∃ t1 t2 card pin account,
    t = t1 ++ Event.done (.insertCardAndVerifyPin card pin) (.ok (.bool true)) :: t2 ∧
    (∀ e ∈ t2, e.isInsert = false) ∧
    Event.done (.selectAccount account) (.ok .unit) ∈ t2

/-- Every call of getBalance, deposit or withdraw in the trace is preceded by an
authorising history. -/
def Safe (t : List Event) : Prop :=
  ∀ (before after : List Event) (k : BankCall),
    t = before ++ Event.call k :: after → k.isBanking = true → Authorised before

/-- The invariant tying the state of the controller to the history. -/
def SessionInv {β : Type} (c : ATMController β) (t : List Event) : Prop :=
  (c.m_CurrentState = State.ACCOUNT_SELECTED → Authorised t) ∧
  (c.m_CurrentState = State.PIN_VERIFIED → PinVerifiedIn t) ∧
  Safe t

/-- The bank-service call came back with a value. -/
def Answer.returns {α : Type} : Answer α → Bool
  | .returned _ => true
  | .threw => false

/-- The card passed to the most recent `insertCardAndVerifyPin` call completed
in the history `t`, whatever that call gave back; `none` when there is none. -/
def lastInsertedCard (t : List Event) : Option Card :=
  t.foldl (fun acc e =>
    match e with
    | .done (.insertCardAndVerifyPin card _) _ => some card
    | _ => acc) none

/-- The trace entry is a `selectAccount` that returned normally. -/
def Event.isSelectOk : Event → Bool
  | .done (.selectAccount _) (.ok _) => true
  | _ => false

/-- The trace entry is an operation that ended with an exception thrown inside
the bank service, that is, a bank-service call that did not return. -/
def Event.isBankException : Event → Bool
  | .done _ (.error .bank_exception) => true
  | _ => false

/-- The trace entries that the calls `ops` add to the trace of `w`. -/
def ATMController.events {β : Type} (self : ATMController β) (w : World β) (ops : List Op) :
    List Event :=
  (self.run w ops).2.trace.drop w.trace.length

/-- The history invariant for the current card: it is the card of the most
recent completed `insertCardAndVerifyPin`, and before the first such call the
controller is still in state IDLE. -/
def CardInv {β : Type} (c : ATMController β) (t : List Event) : Prop :=
  lastInsertedCard t = some c.m_CurrentCard ∨
  (lastInsertedCard t = none ∧ c.m_CurrentState = State.IDLE)

/-- Scans the history from the oldest entry on and keeps what the most recent
completed `insertCardAndVerifyPin` gave: true when it returned true, false when
it returned false, threw, or when there was no such call. -/
def lastInsertReturnedTrue (t : List Event) : Bool :=
  t.foldl (fun acc e =>
    match e with
    | .done (.insertCardAndVerifyPin _ _) r => decide (r = Result.ok (Value.bool true))
    | _ => acc) false

/-- The reachable-state invariant: the state is PIN_VERIFIED or ACCOUNT_SELECTED
exactly when the most recent `insertCardAndVerifyPin` returned true, and the
state is CARD_INSERTED only after a bank-service call that did not return. -/
def StateInv {β : Type} (c : ATMController β) (t : List Event) : Prop :=
  ((c.m_CurrentState = State.PIN_VERIFIED ∨ c.m_CurrentState = State.ACCOUNT_SELECTED) ↔
    lastInsertReturnedTrue t = true) ∧
  ((∀ e ∈ t, e.isBankException = false) → c.m_CurrentState ≠ State.CARD_INSERTED)

/-! ## A test double

The bank service of `test_atm_controller.cpp`: PIN "1234" is accepted, a card
has the accounts ACCT-001 (100) and ACCT-002 (500), the balance is 100, every
deposit is accepted and a withdrawal is accepted up to 100. -/

/-- The fixture card `m_TestCard`. -/
def m_TestCard : Card := { cardNumber := "1234" }

/-- The fixture account `m_TestAccount1`. -/
def m_TestAccount1 : Account := { accountId := "ACCT-001", balance := 100 }

/-- The fixture account `m_TestAccount2`. -/
def m_TestAccount2 : Account := { accountId := "ACCT-002", balance := 500 }

/-- A stateless bank service answering as the mock of the test file does. -/
def MockBankService : IBankService Unit where
  verifyPin := fun b _ pin => (.returned (pin == "1234"), b)
  getAccounts := fun b _ => (.returned [m_TestAccount1, m_TestAccount2], b)
  getBalance := fun b _ => (.returned 100, b)
  deposit := fun b _ _ => (.returned true, b)
  withdraw := fun b _ amount => (.returned (decide (amount ≤ 100)), b)

/-- The controller of the test fixture, as `SetUp` builds it. -/
def m_pAtmController : ATMController Unit :=
  { m_CurrentState := State.IDLE
    m_pBankService := MockBankService
    m_CurrentCard := { cardNumber := "" }
    m_SelectedAccount := { accountId := "", balance := 0 } }

/-- The fixture controller after a verified PIN and `selectAccount(m_TestAccount1)`:
the session of the test `WithdrawInsufficientFunds` before its withdrawal. -/
def m_pAtmControllerSelected : ATMController Unit :=
  { m_CurrentState := State.ACCOUNT_SELECTED
    m_pBankService := MockBankService
    m_CurrentCard := m_TestCard
    m_SelectedAccount := m_TestAccount1 }

/-- The test double with a chosen answer to every balance lookup. -/
def mockWithBalance (balance : Int) : IBankService Unit :=
  { MockBankService with getBalance := fun b _ => (.returned balance, b) }

/-- The fixture controller, freshly constructed, on a bank service whose balance
lookup answers the largest int. -/
def m_pAtmControllerAtIntMax : ATMController Unit :=
  { m_pAtmController with m_pBankService := mockWithBalance 2147483647 }

/-- The world at the start of a test: no call made yet. -/
def World.start : World Unit := { bank := (), trace := [] }

/-! # Theorems

## Trace lemmas and the session invariant -/

/-- An entry that is not a completed card insertion keeps the PIN verified. -/
theorem pinVerifiedIn_snoc {t : List Event} {e : Event} (h : PinVerifiedIn t)
    (he : e.isInsert = false) : PinVerifiedIn (t ++ [e]) := by
  obtain ⟨t1, t2, card, pin, rfl, h2⟩ := h
  refine ⟨t1, t2 ++ [e], card, pin, by simp, ?_⟩
  intro x hx
  rcases List.mem_append.mp hx with hx | hx
  · exact h2 x hx
  · simp at hx; subst hx; exact he

/-- An entry that is not a completed card insertion keeps the authorisation. -/
theorem authorised_snoc {t : List Event} {e : Event} (h : Authorised t)
    (he : e.isInsert = false) : Authorised (t ++ [e]) := by
  obtain ⟨t1, t2, card, pin, account, rfl, h2, h3⟩ := h
  refine ⟨t1, t2 ++ [e], card, pin, account, by simp, ?_, List.mem_append_left _ h3⟩
  intro x hx
  rcases List.mem_append.mp hx with hx | hx
  · exact h2 x hx
  · simp at hx; subst hx; exact he

/-- An authorising history is in particular one with the PIN verified. -/
theorem authorised_pinVerified {t : List Event} (h : Authorised t) : PinVerifiedIn t := by
  obtain ⟨t1, t2, card, pin, _, rfl, h2, _⟩ := h
  exact ⟨t1, t2, card, pin, rfl, h2⟩

/-- A successful selectAccount after a verified PIN authorises banking. -/
theorem pinVerifiedIn_select {t : List Event} (h : PinVerifiedIn t) (account : Account) :
    Authorised (t ++ [Event.done (.selectAccount account) (.ok .unit)]) := by
  obtain ⟨t1, t2, card, pin, rfl, h2⟩ := h
  refine ⟨t1, t2 ++ [Event.done (.selectAccount account) (.ok .unit)], card, pin, account,
    by simp, ?_, by simp⟩
  intro x hx
  rcases List.mem_append.mp hx with hx | hx
  · exact h2 x hx
  · simp at hx; subst hx; rfl

/-- A card insertion that returned true makes the PIN verified. -/
theorem pinVerifiedIn_insert (t : List Event) (card : Card) (pin : String) :
    PinVerifiedIn (t ++ [Event.done (.insertCardAndVerifyPin card pin) (.ok (.bool true))]) :=
  ⟨t, [], card, pin, rfl, by simp⟩

/-- The empty trace holds no banking call. -/
theorem safe_nil : Safe [] := by
  intro before after k h
  simp at h

/-- Appending an entry keeps the trace safe when the entry is not a banking call
or the history before it authorises banking. -/
theorem safe_snoc {t : List Event} {e : Event} (h : Safe t)
    (he : ∀ k, e = Event.call k → k.isBanking = true → Authorised t) : Safe (t ++ [e]) := by
  intro before after k hk hb
  rcases List.eq_nil_or_concat after with rfl | ⟨a, x, rfl⟩
  · have h1 := List.append_inj_left' hk rfl
    have h2 := List.append_inj_right' hk rfl
    simp at h2
    subst h1
    exact he k h2 hb
  · have e1 : before ++ Event.call k :: a.concat x = (before ++ Event.call k :: a) ++ [x] := by
      simp
    rw [e1] at hk
    have h1 := List.append_inj_left' hk rfl
    exact h before a k h1 hb


/-- Every public member function preserves the session invariant. -/
theorem sessionInv_step {β : Type} (c : ATMController β) (w : World β) (op : Op)
    (h : SessionInv c w.trace) : SessionInv (c.step w op).1 (c.step w op).2.trace := by
  obtain ⟨hA, hP, hS⟩ := h
  cases op with
  | insertCardAndVerifyPin card pin =>
    simp only [ATMController.step, ATMController.insertCardAndVerifyPin, Ret.finish, World.invoked]
    have hS1 : Safe (w.trace ++ [Event.call (BankCall.verifyPin card pin)]) :=
      safe_snoc hS (by intro k hk hb; cases hk; simp [BankCall.isBanking] at hb)
    split
    · refine ⟨by simp, by simp, safe_snoc hS1 (by intro k hk; cases hk)⟩
    · split
      · refine ⟨by simp, fun _ => ?_, safe_snoc hS1 (by intro k hk; cases hk)⟩
        exact pinVerifiedIn_insert _ card pin
      · refine ⟨by simp, by simp, safe_snoc hS1 (by intro k hk; cases hk)⟩
  | getAccounts =>
    simp only [ATMController.step, ATMController.getAccounts, Ret.finish, World.invoked]
    split
    · exact ⟨fun hs => authorised_snoc (hA hs) rfl, fun hs => pinVerifiedIn_snoc (hP hs) rfl,
        safe_snoc hS (by intro k hk; cases hk)⟩
    · have hS1 : Safe (w.trace ++ [Event.call (BankCall.getAccounts c.m_CurrentCard)]) :=
        safe_snoc hS (by intro k hk hb; cases hk; simp [BankCall.isBanking] at hb)
      split
      · exact ⟨fun hs => authorised_snoc (authorised_snoc (hA hs) rfl) rfl, fun hs => pinVerifiedIn_snoc (pinVerifiedIn_snoc (hP hs) rfl) rfl,
          safe_snoc hS1 (by intro k hk; cases hk)⟩
      · exact ⟨fun hs => authorised_snoc (authorised_snoc (hA hs) rfl) rfl, fun hs => pinVerifiedIn_snoc (pinVerifiedIn_snoc (hP hs) rfl) rfl,
          safe_snoc hS1 (by intro k hk; cases hk)⟩
  | selectAccount account =>
    simp only [ATMController.step, ATMController.selectAccount, Ret.finish]
    split
    · exact ⟨fun hs => authorised_snoc (hA hs) rfl, fun hs => pinVerifiedIn_snoc (hP hs) rfl,
        safe_snoc hS (by intro k hk; cases hk)⟩
    · rename_i hst
      have hv : PinVerifiedIn w.trace := by
        by_cases h1 : c.m_CurrentState = State.PIN_VERIFIED
        · exact hP h1
        · by_cases h2 : c.m_CurrentState = State.ACCOUNT_SELECTED
          · exact authorised_pinVerified (hA h2)
          · exact absurd ⟨h1, h2⟩ hst
      exact ⟨fun _ => pinVerifiedIn_select hv account, by simp, safe_snoc hS (by intro k hk; cases hk)⟩
  | getSelectedAccount =>
    simp only [ATMController.step, ATMController.getSelectedAccount, Ret.finish]
    exact ⟨fun hs => authorised_snoc (hA hs) rfl, fun hs => pinVerifiedIn_snoc (hP hs) rfl,
      safe_snoc hS (by intro k hk; cases hk)⟩
  | seeBalance =>
    simp only [ATMController.step, ATMController.seeBalance, Ret.finish, World.invoked]
    split
    · exact ⟨fun hs => authorised_snoc (hA hs) rfl, fun hs => pinVerifiedIn_snoc (hP hs) rfl,
        safe_snoc hS (by intro k hk; cases hk)⟩
    · rename_i hst
      have hs : c.m_CurrentState = State.ACCOUNT_SELECTED := not_not.mp hst
      have hS1 : Safe (w.trace ++ [Event.call (BankCall.getBalance c.m_SelectedAccount.accountId)]) :=
        safe_snoc hS (fun _ _ _ => hA hs)
      split
      · exact ⟨fun _ => authorised_snoc (authorised_snoc (hA hs) rfl) rfl, by simp [hs],
          safe_snoc hS1 (by intro k hk; cases hk)⟩
      · exact ⟨fun _ => authorised_snoc (authorised_snoc (hA hs) rfl) rfl, by simp [hs],
          safe_snoc hS1 (by intro k hk; cases hk)⟩
  | deposit amount =>
    simp only [ATMController.step, ATMController.deposit, Ret.finish, World.invoked]
    split
    · exact ⟨fun hs => authorised_snoc (hA hs) rfl, fun hs => pinVerifiedIn_snoc (hP hs) rfl,
        safe_snoc hS (by intro k hk; cases hk)⟩
    · rename_i hst
      have hs : c.m_CurrentState = State.ACCOUNT_SELECTED := not_not.mp hst
      split
      · exact ⟨fun hs => authorised_snoc (hA hs) rfl, fun hs => pinVerifiedIn_snoc (hP hs) rfl,
          safe_snoc hS (by intro k hk; cases hk)⟩
      · have hS1 : Safe (w.trace ++
            [Event.call (BankCall.deposit c.m_SelectedAccount.accountId amount)]) :=
          safe_snoc hS (fun _ _ _ => hA hs)
        split
        · exact ⟨fun _ => authorised_snoc (authorised_snoc (hA hs) rfl) rfl, by simp [hs],
            safe_snoc hS1 (by intro k hk; cases hk)⟩
        · split
          · exact ⟨fun _ => authorised_snoc (authorised_snoc (hA hs) rfl) rfl, by simp [hs],
              safe_snoc hS1 (by intro k hk; cases hk)⟩
          · exact ⟨fun _ => authorised_snoc (authorised_snoc (hA hs) rfl) rfl, by simp [hs],
              safe_snoc hS1 (by intro k hk; cases hk)⟩
  | withdraw amount =>
    simp only [ATMController.step, ATMController.withdraw, Ret.finish, World.invoked]
    split
    · exact ⟨fun hs => authorised_snoc (hA hs) rfl, fun hs => pinVerifiedIn_snoc (hP hs) rfl,
        safe_snoc hS (by intro k hk; cases hk)⟩
    · rename_i hst
      have hs : c.m_CurrentState = State.ACCOUNT_SELECTED := not_not.mp hst
      split
      · exact ⟨fun hs => authorised_snoc (hA hs) rfl, fun hs => pinVerifiedIn_snoc (hP hs) rfl,
          safe_snoc hS (by intro k hk; cases hk)⟩
      · have hS1 : Safe (w.trace ++
            [Event.call (BankCall.withdraw c.m_SelectedAccount.accountId amount)]) :=
          safe_snoc hS (fun _ _ _ => hA hs)
        split
        · exact ⟨fun _ => authorised_snoc (authorised_snoc (hA hs) rfl) rfl, by simp [hs],
            safe_snoc hS1 (by intro k hk; cases hk)⟩
        · split
          · exact ⟨fun _ => authorised_snoc (authorised_snoc (hA hs) rfl) rfl, by simp [hs],
              safe_snoc hS1 (by intro k hk; cases hk)⟩
          · exact ⟨fun _ => authorised_snoc (authorised_snoc (hA hs) rfl) rfl, by simp [hs],
              safe_snoc hS1 (by intro k hk; cases hk)⟩

/-- Every finite sequence of calls preserves the session invariant. -/
theorem sessionInv_run {β : Type} (ops : List Op) :
    ∀ (c : ATMController β) (w : World β), SessionInv c w.trace →
      SessionInv (c.run w ops).1 (c.run w ops).2.trace := by
  induction ops with
  | nil => intro c w h; exact h
  | cons op ops ih =>
    intro c w h
    exact ih _ _ (sessionInv_step c w op h)

/-- A freshly constructed controller with an empty trace satisfies the session
invariant. -/
theorem sessionInv_fresh {β : Type} (svc : IBankService β) (indeterminate : Int)
    (c : ATMController β) (h : ATMController.new (some svc) indeterminate = .ok c) :
    SessionInv c [] := by
  simp only [ATMController.new, Result.ok.injEq] at h
  subst h
  exact ⟨by simp, by simp, safe_nil⟩

/-- C1: on a freshly constructed controller, after any finite sequence of
operations against any bank service, every call of the bank service's getBalance,
deposit or withdraw in the trace is preceded by a history in which the most
recent completed insertCardAndVerifyPin returned true and a selectAccount
succeeded after it. -/
theorem C1_banking_calls_need_pin_and_selection {β : Type} (svc : IBankService β)
    (indeterminate : Int) (bank : β) (ops : List Op) (c : ATMController β)
    (hc : ATMController.new (some svc) indeterminate = .ok c)
    (before after : List Event) (k : BankCall)
    (ht : (c.run { bank := bank, trace := [] } ops).2.trace = before ++ Event.call k :: after)
    (hk : k.isBanking = true) :
    Authorised before :=
  (sessionInv_run ops c { bank := bank, trace := [] } (sessionInv_fresh svc indeterminate c hc)).2.2
    before after k ht hk

/-- Witness for C1 on the test fixture: PIN accepted, account selected, balance
inquiry; the getBalance call is preceded by an authorising history. -/
theorem C1_banking_calls_need_pin_and_selection_witness :
    Authorised
      [Event.call (.verifyPin m_TestCard "1234"),
       Event.done (.insertCardAndVerifyPin m_TestCard "1234") (.ok (.bool true)),
       Event.done (.selectAccount m_TestAccount1) (.ok .unit)] :=
  C1_banking_calls_need_pin_and_selection MockBankService 0 ()
    [.insertCardAndVerifyPin m_TestCard "1234", .selectAccount m_TestAccount1, .seeBalance]
    m_pAtmController rfl
    [Event.call (.verifyPin m_TestCard "1234"),
     Event.done (.insertCardAndVerifyPin m_TestCard "1234") (.ok (.bool true)),
     Event.done (.selectAccount m_TestAccount1) (.ok .unit)]
    [Event.done .seeBalance (.ok (.int 100))]
    (.getBalance "ACCT-001") (by decide) rfl

/-! ## State preconditions -/

/-- C2: seeBalance, deposit and withdraw throw the state-check runtime_error
exactly when the state is not ACCOUNT_SELECTED, for every amount (so also for
amount ≤ 0 in the other three states); in state ACCOUNT_SELECTED none of the
three throws it, and each returns normally whenever the bank-service call it
makes comes back with a value. -/
theorem C2_banking_ops_fail_iff_not_account_selected {β : Type} (c : ATMController β)
    (w : World β) (amount : Int) :
    ((c.seeBalance w).result.failsInvalidState = true ↔
        c.m_CurrentState ≠ State.ACCOUNT_SELECTED) ∧
    ((c.deposit w amount).result.failsInvalidState = true ↔
        c.m_CurrentState ≠ State.ACCOUNT_SELECTED) ∧
    ((c.withdraw w amount).result.failsInvalidState = true ↔
        c.m_CurrentState ≠ State.ACCOUNT_SELECTED) ∧
    (c.m_CurrentState = State.ACCOUNT_SELECTED →
      ((c.m_pBankService.getBalance w.bank c.m_SelectedAccount.accountId).1.returns = true →
        (c.seeBalance w).result.succeeds = true) ∧
      ((c.m_pBankService.deposit w.bank c.m_SelectedAccount.accountId amount).1.returns = true →
        (c.deposit w amount).result.succeeds = true) ∧
      ((c.m_pBankService.withdraw w.bank c.m_SelectedAccount.accountId amount).1.returns = true →
        (c.withdraw w amount).result.succeeds = true)) := by
  refine ⟨?_, ?_, ?_, ?_⟩
  · unfold ATMController.seeBalance
    by_cases hs : c.m_CurrentState = State.ACCOUNT_SELECTED
    · simp only [hs, ne_eq, not_true_eq_false, if_false]
      split <;> simp [Result.failsInvalidState, Error.isInvalidState]
    · simp [hs, Result.failsInvalidState, Error.isInvalidState]
  · unfold ATMController.deposit
    by_cases hs : c.m_CurrentState = State.ACCOUNT_SELECTED
    · simp only [hs, ne_eq, not_true_eq_false, if_false]
      split
      · simp [Result.failsInvalidState]
      · split
        · simp [Result.failsInvalidState, Error.isInvalidState]
        · split <;> simp [Result.failsInvalidState]
    · simp [hs, Result.failsInvalidState, Error.isInvalidState]
  · unfold ATMController.withdraw
    by_cases hs : c.m_CurrentState = State.ACCOUNT_SELECTED
    · simp only [hs, ne_eq, not_true_eq_false, if_false]
      split
      · simp [Result.failsInvalidState]
      · split
        · simp [Result.failsInvalidState, Error.isInvalidState]
        · split <;> simp [Result.failsInvalidState]
    · simp [hs, Result.failsInvalidState, Error.isInvalidState]
  · intro hs
    refine ⟨?_, ?_, ?_⟩
    · intro hr
      unfold ATMController.seeBalance
      simp only [hs, ne_eq, not_true_eq_false, if_false]
      split
      · rename_i h; rw [h] at hr; simp [Answer.returns] at hr
      · simp [Result.succeeds]
    · intro hr
      unfold ATMController.deposit
      simp only [hs, ne_eq, not_true_eq_false, if_false]
      split
      · simp [Result.succeeds]
      · split
        · rename_i h; rw [h] at hr; simp [Answer.returns] at hr
        · split <;> simp [Result.succeeds]
    · intro hr
      unfold ATMController.withdraw
      simp only [hs, ne_eq, not_true_eq_false, if_false]
      split
      · simp [Result.succeeds]
      · split
        · rename_i h; rw [h] at hr; simp [Answer.returns] at hr
        · split <;> simp [Result.succeeds]

/-- Witness for C2: on the fresh fixture controller (state IDLE) deposit(-5)
throws the state-check error, and on the fixture session with an account
selected withdraw(30) returns normally. -/
theorem C2_banking_ops_fail_iff_not_account_selected_witness :
    (m_pAtmController.deposit World.start (-5)).result.failsInvalidState = true ∧
    (m_pAtmControllerSelected.withdraw World.start 30).result.succeeds = true :=
  ⟨(C2_banking_ops_fail_iff_not_account_selected m_pAtmController World.start (-5)).2.1.mpr
      (by decide),
   ((C2_banking_ops_fail_iff_not_account_selected m_pAtmControllerSelected World.start 30).2.2.2
      rfl).2.2 rfl⟩

/-- C3: getAccounts and selectAccount throw the state-check runtime_error exactly
when the state is neither PIN_VERIFIED nor ACCOUNT_SELECTED, for every account
argument; insertCardAndVerifyPin and getSelectedAccount never throw it, in any
state. -/
theorem C3_listing_and_selection_fail_iff_pin_not_verified {β : Type} (c : ATMController β)
    (w : World β) (account : Account) (card : Card) (pin : String) :
    ((c.getAccounts w).result.failsInvalidState = true ↔
        ¬ (c.m_CurrentState = State.PIN_VERIFIED ∨ c.m_CurrentState = State.ACCOUNT_SELECTED)) ∧
    ((c.selectAccount w account).result.failsInvalidState = true ↔
        ¬ (c.m_CurrentState = State.PIN_VERIFIED ∨ c.m_CurrentState = State.ACCOUNT_SELECTED)) ∧
    (c.insertCardAndVerifyPin w card pin).result.failsInvalidState = false ∧
    (c.getSelectedAccount w).result.failsInvalidState = false := by
  refine ⟨?_, ?_, ?_, ?_⟩
  · unfold ATMController.getAccounts
    split
    · rename_i h
      simp only [Result.failsInvalidState, Error.isInvalidState, true_iff]
      tauto
    · rename_i h
      have h3 : c.m_CurrentState = State.PIN_VERIFIED ∨
          c.m_CurrentState = State.ACCOUNT_SELECTED := by tauto
      dsimp only
      split <;> simp [Result.failsInvalidState, Error.isInvalidState, h3]
  · unfold ATMController.selectAccount
    split
    · rename_i h
      simp only [Result.failsInvalidState, Error.isInvalidState, true_iff]
      tauto
    · rename_i h
      have h3 : c.m_CurrentState = State.PIN_VERIFIED ∨
          c.m_CurrentState = State.ACCOUNT_SELECTED := by tauto
      simp [Result.failsInvalidState, h3]
  · unfold ATMController.insertCardAndVerifyPin
    simp only
    split
    · rfl
    · split <;> rfl
  · rfl

/-! ## Card insertion and PIN verification -/

/-- C4: from every state, for every card and pin, when the bank service's
verifyPin(card, pin) returns v, insertCardAndVerifyPin(card, pin) returns v.  If v
is true the state is PIN_VERIFIED, an immediately following selectAccount(a)
returns normally and an immediately following getAccounts() passes the state
check and returns normally whenever the bank service's getAccounts comes back
with a value.  If v is false the state is IDLE and both getAccounts() and
selectAccount(a) throw the state-check runtime_error. -/
theorem C4_insert_returns_verifyPin_answer {β : Type} (c : ATMController β) (w : World β)
    (card : Card) (pin : String) (v : Bool) (a : Account)
    (hv : (c.m_pBankService.verifyPin w.bank card pin).1 = Answer.returned v) :
    (c.insertCardAndVerifyPin w card pin).result = Result.ok v ∧
    (v = true →
      (c.insertCardAndVerifyPin w card pin).self.m_CurrentState = State.PIN_VERIFIED ∧
      (((c.insertCardAndVerifyPin w card pin).self.selectAccount
          (c.insertCardAndVerifyPin w card pin).world a).result.succeeds = true) ∧
      (((c.insertCardAndVerifyPin w card pin).self.getAccounts
          (c.insertCardAndVerifyPin w card pin).world).result.failsInvalidState = false) ∧
      ((c.m_pBankService.getAccounts (c.insertCardAndVerifyPin w card pin).world.bank card).1.returns
          = true →
        ((c.insertCardAndVerifyPin w card pin).self.getAccounts
          (c.insertCardAndVerifyPin w card pin).world).result.succeeds = true)) ∧
    (v = false →
      (c.insertCardAndVerifyPin w card pin).self.m_CurrentState = State.IDLE ∧
      (((c.insertCardAndVerifyPin w card pin).self.getAccounts
          (c.insertCardAndVerifyPin w card pin).world).result.failsInvalidState = true) ∧
      (((c.insertCardAndVerifyPin w card pin).self.selectAccount
          (c.insertCardAndVerifyPin w card pin).world a).result.failsInvalidState = true)) := by
  cases v with
  | true =>
    have e : c.insertCardAndVerifyPin w card pin =
        { result := Result.ok true,
          self := { c with m_CurrentState := State.PIN_VERIFIED, m_CurrentCard := card },
          world := w.invoked (.verifyPin card pin) (c.m_pBankService.verifyPin w.bank card pin).2 } := by
      simp [ATMController.insertCardAndVerifyPin, hv]
    rw [e]
    refine ⟨rfl, fun _ => ⟨rfl, ?_, ?_, ?_⟩, by simp⟩
    · simp [ATMController.selectAccount, Result.succeeds]
    · simp only [ATMController.getAccounts]
      simp only [ne_eq, not_true_eq_false, false_and, if_false]
      split <;> rfl
    · intro hr
      simp only [ATMController.getAccounts]
      simp only [ne_eq, not_true_eq_false, false_and, if_false]
      split
      · rename_i h; rw [h] at hr; simp [Answer.returns] at hr
      · rfl
  | false =>
    have e : c.insertCardAndVerifyPin w card pin =
        { result := Result.ok false,
          self := { c with m_CurrentState := State.IDLE, m_CurrentCard := card },
          world := w.invoked (.verifyPin card pin) (c.m_pBankService.verifyPin w.bank card pin).2 } := by
      simp [ATMController.insertCardAndVerifyPin, hv]
    rw [e]
    refine ⟨rfl, by simp, fun _ => ⟨rfl, ?_, ?_⟩⟩
    · simp [ATMController.getAccounts, Result.failsInvalidState, Error.isInvalidState]
    · simp [ATMController.selectAccount, Result.failsInvalidState, Error.isInvalidState]

/-- Witness for C4, the test `InvalidPin`: card "1234", pin "9999", the bank
service answers false; then the call returns false and getAccounts throws.  With
pin "1234" the call returns true and the state is PIN_VERIFIED. -/
theorem C4_insert_returns_verifyPin_answer_witness :
    ((m_pAtmController.insertCardAndVerifyPin World.start m_TestCard "9999").result
        = Result.ok false ∧
      ((m_pAtmController.insertCardAndVerifyPin World.start m_TestCard "9999").self.getAccounts
        (m_pAtmController.insertCardAndVerifyPin World.start m_TestCard "9999").world
        ).result.failsInvalidState = true) ∧
    ((m_pAtmController.insertCardAndVerifyPin World.start m_TestCard "1234").result
        = Result.ok true ∧
      (m_pAtmController.insertCardAndVerifyPin World.start m_TestCard "1234").self.m_CurrentState
        = State.PIN_VERIFIED) :=
  ⟨⟨(C4_insert_returns_verifyPin_answer m_pAtmController World.start m_TestCard "9999" false
        m_TestAccount1 rfl).1,
    ((C4_insert_returns_verifyPin_answer m_pAtmController World.start m_TestCard "9999" false
        m_TestAccount1 rfl).2.2 rfl).2.1⟩,
   ⟨(C4_insert_returns_verifyPin_answer m_pAtmController World.start m_TestCard "1234" true
        m_TestAccount1 rfl).1,
    ((C4_insert_returns_verifyPin_answer m_pAtmController World.start m_TestCard "1234" true
        m_TestAccount1 rfl).2.1 rfl).1⟩⟩

/-! ## Account selection -/

/-- C5: for every account a (no check against the current card) and every state
in PIN_VERIFIED, ACCOUNT_SELECTED, selectAccount(a) returns normally, leaves the
world untouched (no call into the bank service, no change of the bank), the
resulting state is ACCOUNT_SELECTED, nothing but the state and the selected
account changes, and an immediately following getSelectedAccount() returns a. -/
theorem C5_selectAccount_records_account {β : Type} (c : ATMController β) (w : World β)
    (a : Account)
    (hs : c.m_CurrentState = State.PIN_VERIFIED ∨ c.m_CurrentState = State.ACCOUNT_SELECTED) :
    (c.selectAccount w a).result = Result.ok () ∧
    (c.selectAccount w a).world = w ∧
    (c.selectAccount w a).self.m_CurrentState = State.ACCOUNT_SELECTED ∧
    (c.selectAccount w a).self.m_CurrentCard = c.m_CurrentCard ∧
    ((c.selectAccount w a).self.getSelectedAccount (c.selectAccount w a).world).result
      = Result.ok a ∧
    (c.selectAccount w a).self.m_SelectedAccount.accountId = a.accountId ∧
    (c.selectAccount w a).self.m_SelectedAccount.balance = a.balance := by
  have hn : ¬ (c.m_CurrentState ≠ State.PIN_VERIFIED ∧
      c.m_CurrentState ≠ State.ACCOUNT_SELECTED) := by tauto
  have e : c.selectAccount w a =
      { result := Result.ok (),
        self := { c with m_SelectedAccount := a, m_CurrentState := State.ACCOUNT_SELECTED },
        world := w } := by
    simp only [ATMController.selectAccount, hn, if_false]
  rw [e]
  exact ⟨rfl, rfl, rfl, rfl, rfl, rfl, rfl⟩

/-- Witness for C5: after a verified PIN on the fixture, selecting an account
that the bank never listed for the card is accepted and read back. -/
theorem C5_selectAccount_records_account_witness :
    ((m_pAtmController.insertCardAndVerifyPin World.start m_TestCard "1234").self.selectAccount
        World.start { accountId := "NOT-MINE", balance := -7 }).self.m_SelectedAccount.accountId
      = "NOT-MINE" ∧
    ((m_pAtmController.insertCardAndVerifyPin World.start m_TestCard "1234").self.selectAccount
        World.start { accountId := "NOT-MINE", balance := -7 }).self.m_SelectedAccount.balance
      = -7 :=
  ⟨(C5_selectAccount_records_account
      (m_pAtmController.insertCardAndVerifyPin World.start m_TestCard "1234").self World.start
      { accountId := "NOT-MINE", balance := -7 } (Or.inl rfl)).2.2.2.2.2.1,
   (C5_selectAccount_records_account
      (m_pAtmController.insertCardAndVerifyPin World.start m_TestCard "1234").self World.start
      { accountId := "NOT-MINE", balance := -7 } (Or.inl rfl)).2.2.2.2.2.2⟩

/-! ## Deposit and withdrawal -/

/-- Storing an integer that already lies in the int range changes nothing. -/
theorem wrapInt_of_isCInt (x : Int) (h : isCInt x) : wrapInt x = x := by
  unfold isCInt INT_MIN INT_MAX at h
  unfold wrapInt
  omega

/-- The value stored by a compound assignment always lies in the int range. -/
theorem isCInt_wrapInt (x : Int) : isCInt (wrapInt x) := by
  unfold isCInt INT_MIN INT_MAX wrapInt
  omega

/-- C6 fails as stated: a session reached from a fresh controller holds the
cached balance 2147483647 (the largest int); deposit(1) is approved by the bank
service and returns true, and the cached balance is then -2147483648, not
2147483647 + 1.  In the same way withdraw(1) at the cached balance -2147483648
returns true and leaves 2147483647, not -2147483648 - 1. -/
theorem C6_counterexample_balance_overflow :
    (m_pAtmController.run World.start
        [.insertCardAndVerifyPin m_TestCard "1234",
         .selectAccount { accountId := "ACCT-001", balance := 2147483647 },
         .deposit 1]).2.trace.getLast? = some (Event.done (.deposit 1) (.ok (.bool true))) ∧
    (m_pAtmController.run World.start
        [.insertCardAndVerifyPin m_TestCard "1234",
         .selectAccount { accountId := "ACCT-001", balance := 2147483647 },
         .deposit 1]).1.m_SelectedAccount.balance = -2147483648 ∧
    (m_pAtmController.run World.start
        [.insertCardAndVerifyPin m_TestCard "1234",
         .selectAccount { accountId := "ACCT-001", balance := 2147483647 },
         .deposit 1]).1.m_SelectedAccount.balance ≠ 2147483647 + 1 ∧
    (m_pAtmController.run World.start
        [.insertCardAndVerifyPin m_TestCard "1234",
         .selectAccount { accountId := "ACCT-001", balance := -2147483648 },
         .withdraw 1]).2.trace.getLast? = some (Event.done (.withdraw 1) (.ok (.bool true))) ∧
    (m_pAtmController.run World.start
        [.insertCardAndVerifyPin m_TestCard "1234",
         .selectAccount { accountId := "ACCT-001", balance := -2147483648 },
         .withdraw 1]).1.m_SelectedAccount.balance = 2147483647 ∧
    (m_pAtmController.run World.start
        [.insertCardAndVerifyPin m_TestCard "1234",
         .selectAccount { accountId := "ACCT-001", balance := -2147483648 },
         .withdraw 1]).1.m_SelectedAccount.balance ≠ -2147483648 - 1 := by
  refine ⟨by decide, by decide, by decide, by decide, by decide, by decide⟩

/-- C6 as amended: in state ACCOUNT_SELECTED, for every int amount > 0 and every
int cached balance b, if the bank service reports success then deposit(amount)
returns true and, provided b + amount does not exceed the largest int, the
cached balance becomes exactly b + amount; withdraw(amount) returns true and,
provided b - amount is not below the smallest int, the cached balance becomes
exactly b - amount.  The selected accountId, the current card and the state are
unchanged in both. -/
theorem C6_success_adjusts_cached_balance {β : Type} (c : ATMController β) (w : World β)
    (amount : Int) (hs : c.m_CurrentState = State.ACCOUNT_SELECTED) (hpos : 0 < amount)
    (hamt : isCInt amount) (hbal : isCInt c.m_SelectedAccount.balance) :
    ((c.m_pBankService.deposit w.bank c.m_SelectedAccount.accountId amount).1
        = Answer.returned true →
      (c.deposit w amount).result = Result.ok true ∧
      (c.m_SelectedAccount.balance + amount ≤ INT_MAX →
        (c.deposit w amount).self.m_SelectedAccount.balance
          = c.m_SelectedAccount.balance + amount) ∧
      (c.deposit w amount).self.m_SelectedAccount.accountId = c.m_SelectedAccount.accountId ∧
      (c.deposit w amount).self.m_CurrentCard = c.m_CurrentCard ∧
      (c.deposit w amount).self.m_CurrentState = State.ACCOUNT_SELECTED) ∧
    ((c.m_pBankService.withdraw w.bank c.m_SelectedAccount.accountId amount).1
        = Answer.returned true →
      (c.withdraw w amount).result = Result.ok true ∧
      (INT_MIN ≤ c.m_SelectedAccount.balance - amount →
        (c.withdraw w amount).self.m_SelectedAccount.balance
          = c.m_SelectedAccount.balance - amount) ∧
      (c.withdraw w amount).self.m_SelectedAccount.accountId = c.m_SelectedAccount.accountId ∧
      (c.withdraw w amount).self.m_CurrentCard = c.m_CurrentCard ∧
      (c.withdraw w amount).self.m_CurrentState = State.ACCOUNT_SELECTED) := by
  have hna : ¬ amount ≤ 0 := by omega
  constructor
  · intro hd
    have e : c.deposit w amount =
        { result := Result.ok true,
          self := { c with m_SelectedAccount :=
                      { c.m_SelectedAccount with
                        balance := wrapInt (c.m_SelectedAccount.balance + amount) } },
          world := w.invoked (.deposit c.m_SelectedAccount.accountId amount)
            (c.m_pBankService.deposit w.bank c.m_SelectedAccount.accountId amount).2 } := by
      simp [ATMController.deposit, hs, hna, hd]
    rw [e]
    refine ⟨rfl, fun hle => ?_, rfl, rfl, hs⟩
    apply wrapInt_of_isCInt
    unfold isCInt INT_MIN INT_MAX at *
    omega
  · intro hd
    have e : c.withdraw w amount =
        { result := Result.ok true,
          self := { c with m_SelectedAccount :=
                      { c.m_SelectedAccount with
                        balance := wrapInt (c.m_SelectedAccount.balance - amount) } },
          world := w.invoked (.withdraw c.m_SelectedAccount.accountId amount)
            (c.m_pBankService.withdraw w.bank c.m_SelectedAccount.accountId amount).2 } := by
      simp [ATMController.withdraw, hs, hna, hd]
    rw [e]
    refine ⟨rfl, fun hle => ?_, rfl, rfl, hs⟩
    apply wrapInt_of_isCInt
    unfold isCInt INT_MIN INT_MAX at *
    omega

/-- Witness for C6 as amended, with the amounts of the test
`SuccessfulFullTransactionFlow`: at cached balance 100, deposit(50) leaves 150 and
withdraw(30) leaves 70. -/
theorem C6_success_adjusts_cached_balance_witness :
    (m_pAtmControllerSelected.deposit World.start 50).self.m_SelectedAccount.balance = 100 + 50 ∧
    (m_pAtmControllerSelected.withdraw World.start 30).self.m_SelectedAccount.balance = 100 - 30 :=
  ⟨((C6_success_adjusts_cached_balance m_pAtmControllerSelected World.start 50 rfl (by decide)
      (by decide) (by decide)).1 rfl).2.1 (by decide),
   ((C6_success_adjusts_cached_balance m_pAtmControllerSelected World.start 30 rfl (by decide)
      (by decide) (by decide)).2 rfl).2.1 (by decide)⟩

/-- C7: in state ACCOUNT_SELECTED, for every amount > 0, if the bank service's
deposit (resp. withdraw) reports failure then deposit(amount) (resp.
withdraw(amount)) returns false and the controller is exactly what it was:
state, current card, selected accountId and cached balance. -/
theorem C7_rejection_leaves_session_unchanged {β : Type} (c : ATMController β) (w : World β)
    (amount : Int) (hs : c.m_CurrentState = State.ACCOUNT_SELECTED) (hpos : 0 < amount) :
    ((c.m_pBankService.deposit w.bank c.m_SelectedAccount.accountId amount).1
        = Answer.returned false →
      (c.deposit w amount).result = Result.ok false ∧
      (c.deposit w amount).self = c ∧
      (c.deposit w amount).self.m_CurrentState = State.ACCOUNT_SELECTED) ∧
    ((c.m_pBankService.withdraw w.bank c.m_SelectedAccount.accountId amount).1
        = Answer.returned false →
      (c.withdraw w amount).result = Result.ok false ∧
      (c.withdraw w amount).self = c ∧
      (c.withdraw w amount).self.m_CurrentState = State.ACCOUNT_SELECTED) := by
  have hna : ¬ amount ≤ 0 := by omega
  constructor
  · intro hd
    have e : c.deposit w amount =
        { result := Result.ok false, self := c,
          world := w.invoked (.deposit c.m_SelectedAccount.accountId amount)
            (c.m_pBankService.deposit w.bank c.m_SelectedAccount.accountId amount).2 } := by
      simp [ATMController.deposit, hs, hna, hd]
    rw [e]
    exact ⟨rfl, rfl, hs⟩
  · intro hd
    have e : c.withdraw w amount =
        { result := Result.ok false, self := c,
          world := w.invoked (.withdraw c.m_SelectedAccount.accountId amount)
            (c.m_pBankService.withdraw w.bank c.m_SelectedAccount.accountId amount).2 } := by
      simp [ATMController.withdraw, hs, hna, hd]
    rw [e]
    exact ⟨rfl, rfl, hs⟩

/-- Witness for C7, the test `WithdrawInsufficientFunds`: account ACCT-001 with
cached balance 100, withdraw(200) rejected by the bank service; the call returns
false and the cached balance is still 100. -/
theorem C7_rejection_leaves_session_unchanged_witness :
    (m_pAtmControllerSelected.withdraw World.start 200).result = Result.ok false ∧
    (m_pAtmControllerSelected.withdraw World.start 200).self.m_SelectedAccount.balance = 100 :=
  ⟨((C7_rejection_leaves_session_unchanged m_pAtmControllerSelected World.start 200 rfl
      (by decide)).2 rfl).1,
   congrArg (fun s => s.m_SelectedAccount.balance)
    ((C7_rejection_leaves_session_unchanged m_pAtmControllerSelected World.start 200 rfl
      (by decide)).2 rfl).2.1⟩

/-- C8: in state ACCOUNT_SELECTED, for every amount ≤ 0, deposit(amount) and
withdraw(amount) return false, leave the world untouched (no call into the bank
service) and leave the controller exactly as it was. -/
theorem C8_nonpositive_amount_short_circuits {β : Type} (c : ATMController β) (w : World β)
    (amount : Int) (hs : c.m_CurrentState = State.ACCOUNT_SELECTED) (hle : amount ≤ 0) :
    (c.deposit w amount).result = Result.ok false ∧
    (c.deposit w amount).world = w ∧
    (c.deposit w amount).self = c ∧
    (c.withdraw w amount).result = Result.ok false ∧
    (c.withdraw w amount).world = w ∧
    (c.withdraw w amount).self = c := by
  have e1 : c.deposit w amount = { result := Result.ok false, self := c, world := w } := by
    simp [ATMController.deposit, hs, hle]
  have e2 : c.withdraw w amount = { result := Result.ok false, self := c, world := w } := by
    simp [ATMController.withdraw, hs, hle]
  rw [e1, e2]
  exact ⟨rfl, rfl, rfl, rfl, rfl, rfl⟩

/-- Witness for C8: deposit(0) and withdraw(-2147483648) on the fixture session
return false and record no bank-service call. -/
theorem C8_nonpositive_amount_short_circuits_witness :
    (m_pAtmControllerSelected.deposit World.start 0).result = Result.ok false ∧
    (m_pAtmControllerSelected.withdraw World.start (-2147483648)).world.trace = [] :=
  ⟨(C8_nonpositive_amount_short_circuits m_pAtmControllerSelected World.start 0 rfl
      (by decide)).1,
   congrArg World.trace
    (C8_nonpositive_amount_short_circuits m_pAtmControllerSelected World.start (-2147483648) rfl
      (by decide)).2.2.2.2.1⟩

/-! ## Balance inquiry -/

/-- C9: in state ACCOUNT_SELECTED, when the bank service's getBalance for the
selected accountId returns v, seeBalance() returns v whatever the cached balance
was; afterwards getSelectedAccount().balance is v, and the selected accountId,
the current card and the state are unchanged. -/
theorem C9_seeBalance_returns_and_caches_bank_value {β : Type} (c : ATMController β)
    (w : World β) (v : Int) (hs : c.m_CurrentState = State.ACCOUNT_SELECTED)
    (hv : (c.m_pBankService.getBalance w.bank c.m_SelectedAccount.accountId).1
        = Answer.returned v) :
    (c.seeBalance w).result = Result.ok v ∧
    ((c.seeBalance w).self.getSelectedAccount (c.seeBalance w).world).result
      = Result.ok { accountId := c.m_SelectedAccount.accountId, balance := v } ∧
    (c.seeBalance w).self.m_SelectedAccount.balance = v ∧
    (c.seeBalance w).self.m_SelectedAccount.accountId = c.m_SelectedAccount.accountId ∧
    (c.seeBalance w).self.m_CurrentCard = c.m_CurrentCard ∧
    (c.seeBalance w).self.m_CurrentState = State.ACCOUNT_SELECTED := by
  have e : c.seeBalance w =
      { result := Result.ok v,
        self := { c with m_SelectedAccount := { c.m_SelectedAccount with balance := v } },
        world := w.invoked (.getBalance c.m_SelectedAccount.accountId)
          (c.m_pBankService.getBalance w.bank c.m_SelectedAccount.accountId).2 } := by
    simp [ATMController.seeBalance, hs, hv]
  rw [e]
  exact ⟨rfl, rfl, rfl, rfl, rfl, hs⟩

/-- Witness for C9: the cached balance is 7, the bank service answers 100;
seeBalance returns 100 and the cache holds 100. -/
theorem C9_seeBalance_returns_and_caches_bank_value_witness :
    (ATMController.seeBalance
        { m_pAtmControllerSelected with m_SelectedAccount := { accountId := "ACCT-001", balance := 7 } }
        World.start).result = Result.ok 100 ∧
    (ATMController.seeBalance
        { m_pAtmControllerSelected with m_SelectedAccount := { accountId := "ACCT-001", balance := 7 } }
        World.start).self.m_SelectedAccount.balance = 100 :=
  ⟨(C9_seeBalance_returns_and_caches_bank_value
      { m_pAtmControllerSelected with m_SelectedAccount := { accountId := "ACCT-001", balance := 7 } }
      World.start 100 rfl rfl).1,
   (C9_seeBalance_returns_and_caches_bank_value
      { m_pAtmControllerSelected with m_SelectedAccount := { accountId := "ACCT-001", balance := 7 } }
      World.start 100 rfl rfl).2.2.1⟩

/-! ## Construction -/

/-- C10: constructing with a null bank service throws invalid_argument and
yields no controller; constructing with any bank service yields a controller in
state IDLE, on which getAccounts, selectAccount, seeBalance, deposit and
withdraw all throw the state-check runtime_error, in every world and for every
argument. -/
theorem C10_construction {β : Type} (indeterminate : Int) :
    (ATMController.new (none : Option (IBankService β)) indeterminate).failsInvalidArgument
        = true ∧
    (∀ c : ATMController β, ATMController.new none indeterminate ≠ Result.ok c) ∧
    (∀ svc : IBankService β, ∃ c : ATMController β,
      ATMController.new (some svc) indeterminate = Result.ok c ∧
      c.m_CurrentState = State.IDLE ∧
      c.m_pBankService = svc ∧
      ∀ (w : World β) (account : Account) (amount : Int),
        (c.getAccounts w).result.failsInvalidState = true ∧
        (c.selectAccount w account).result.failsInvalidState = true ∧
        (c.seeBalance w).result.failsInvalidState = true ∧
        (c.deposit w amount).result.failsInvalidState = true ∧
        (c.withdraw w amount).result.failsInvalidState = true) := by
  refine ⟨rfl, ?_, ?_⟩
  · intro c h
    simp [ATMController.new] at h
  · intro svc
    refine ⟨_, rfl, rfl, rfl, ?_⟩
    intro w account amount
    refine ⟨?_, ?_, ?_, ?_, ?_⟩
    · simp [ATMController.getAccounts, Result.failsInvalidState, Error.isInvalidState]
    · simp [ATMController.selectAccount, Result.failsInvalidState, Error.isInvalidState]
    · simp [ATMController.seeBalance, Result.failsInvalidState, Error.isInvalidState]
    · simp [ATMController.deposit, Result.failsInvalidState, Error.isInvalidState]
    · simp [ATMController.withdraw, Result.failsInvalidState, Error.isInvalidState]

/-! ## Runs and traces -/

/-- A call acts on the trace only by appending: the controller and the bank it
leaves do not depend on the trace so far. -/
theorem step_trace_split {β : Type} (c : ATMController β) (w : World β) (op : Op) :
    (c.step w op).1 = (c.step { bank := w.bank, trace := [] } op).1 ∧
    (c.step w op).2.bank = (c.step { bank := w.bank, trace := [] } op).2.bank ∧
    (c.step w op).2.trace = w.trace ++ (c.step { bank := w.bank, trace := [] } op).2.trace := by
  cases op <;>
    simp only [ATMController.step, ATMController.insertCardAndVerifyPin, ATMController.getAccounts,
      ATMController.selectAccount, ATMController.getSelectedAccount, ATMController.seeBalance,
      ATMController.deposit, ATMController.withdraw, Ret.finish, World.invoked] <;>
    (repeat' split) <;> simp

/-- A sequence of calls acts on the trace only by appending. -/
theorem run_trace_split {β : Type} (ops : List Op) :
    ∀ (c : ATMController β) (w : World β),
      (c.run w ops).1 = (c.run { bank := w.bank, trace := [] } ops).1 ∧
      (c.run w ops).2.bank = (c.run { bank := w.bank, trace := [] } ops).2.bank ∧
      (c.run w ops).2.trace = w.trace ++ (c.run { bank := w.bank, trace := [] } ops).2.trace := by
  induction ops with
  | nil => intro c w; simp [ATMController.run]
  | cons op ops ih =>
    intro c w
    obtain ⟨h1, h2, h3⟩ := step_trace_split c w op
    have a := ih (c.step w op).1 (c.step w op).2
    have b := ih (c.step { bank := w.bank, trace := [] } op).1
      (c.step { bank := w.bank, trace := [] } op).2
    simp only [ATMController.run]
    rw [a.1, a.2.1, a.2.2, b.1, b.2.1, b.2.2, h1, h2, h3]
    simp

/-- The trace after a sequence of calls is the trace before it followed by the
entries the calls added. -/
theorem run_trace_eq {β : Type} (c : ATMController β) (w : World β) (ops : List Op) :
    (c.run w ops).2.trace = w.trace ++ c.events w ops := by
  unfold ATMController.events
  rw [(run_trace_split ops c w).2.2]
  simp

/-- The entries added by a call followed by further calls. -/
theorem events_cons {β : Type} (c : ATMController β) (w : World β) (op : Op) (ops : List Op) :
    c.events w (op :: ops) =
      c.events w [op] ++ (c.step w op).1.events (c.step w op).2 ops := by
  have h1 := run_trace_eq (c.step w op).1 (c.step w op).2 ops
  have h2 := run_trace_eq c w [op]
  simp only [ATMController.run] at h2
  unfold ATMController.events
  simp only [ATMController.run]
  rw [h1, h2]
  simp

/-- Outside state ACCOUNT_SELECTED a call either leaves the state outside
ACCOUNT_SELECTED and the selected account untouched, or it is a selectAccount
that returned normally. -/
theorem step_without_selection {β : Type} (c : ATMController β) (w : World β) (op : Op)
    (hs : c.m_CurrentState ≠ State.ACCOUNT_SELECTED)
    (hn : ∀ e ∈ c.events w [op], e.isSelectOk = false) :
    (c.step w op).1.m_CurrentState ≠ State.ACCOUNT_SELECTED ∧
    (c.step w op).1.m_SelectedAccount = c.m_SelectedAccount := by
  have ht := (step_trace_split c w op).2.2
  simp only [ATMController.events, ATMController.run, ht, List.drop_left] at hn
  revert hn
  cases op <;>
    simp only [ATMController.step, ATMController.insertCardAndVerifyPin, ATMController.getAccounts,
      ATMController.selectAccount, ATMController.getSelectedAccount, ATMController.seeBalance,
      ATMController.deposit, ATMController.withdraw, Ret.finish, World.invoked] <;>
    (repeat' split) <;> simp_all [Event.isSelectOk, Result.map]

/-- Until a selectAccount returns normally, the state stays outside
ACCOUNT_SELECTED and the selected account stays what it was. -/
theorem run_without_selection {β : Type} (ops : List Op) :
    ∀ (c : ATMController β) (w : World β),
      c.m_CurrentState ≠ State.ACCOUNT_SELECTED →
      (∀ e ∈ c.events w ops, e.isSelectOk = false) →
      (c.run w ops).1.m_CurrentState ≠ State.ACCOUNT_SELECTED ∧
      (c.run w ops).1.m_SelectedAccount = c.m_SelectedAccount := by
  induction ops with
  | nil => intro c w hs _; exact ⟨hs, rfl⟩
  | cons op ops ih =>
    intro c w hs hn
    rw [events_cons] at hn
    have h1 := step_without_selection c w op hs
      (fun e he => hn e (List.mem_append_left _ he))
    have h2 := ih (c.step w op).1 (c.step w op).2 h1.1
      (fun e he => hn e (List.mem_append_right _ he))
    simp only [ATMController.run]
    exact ⟨h2.1, h2.2.trans h1.2⟩

/-- Every public member function preserves the current-card invariant. -/
theorem cardInv_step {β : Type} (c : ATMController β) (w : World β) (op : Op)
    (h : CardInv c w.trace) : CardInv (c.step w op).1 (c.step w op).2.trace := by
  unfold CardInv at h ⊢
  cases op <;>
    simp only [ATMController.step, ATMController.insertCardAndVerifyPin, ATMController.getAccounts,
      ATMController.selectAccount, ATMController.getSelectedAccount, ATMController.seeBalance,
      ATMController.deposit, ATMController.withdraw, Ret.finish, World.invoked] <;>
    (repeat' split) <;> simp_all [lastInsertedCard, List.foldl_append]
  rcases h with h | h <;> simp_all

/-- Every finite sequence of calls preserves the current-card invariant. -/
theorem cardInv_run {β : Type} (ops : List Op) :
    ∀ (c : ATMController β) (w : World β), CardInv c w.trace →
      CardInv (c.run w ops).1 (c.run w ops).2.trace := by
  induction ops with
  | nil => intro c w h; exact h
  | cons op ops ih =>
    intro c w h
    exact ih _ _ (cardInv_step c w op h)

/-- A freshly constructed controller with an empty trace satisfies the
current-card invariant. -/
theorem cardInv_fresh {β : Type} (svc : IBankService β) (indeterminate : Int)
    (c : ATMController β) (h : ATMController.new (some svc) indeterminate = .ok c) :
    CardInv c [] := by
  simp only [ATMController.new, Result.ok.injEq] at h
  subst h
  exact Or.inr ⟨rfl, rfl⟩

/-! ## Account listing -/

/-- C11: in state PIN_VERIFIED or ACCOUNT_SELECTED, when the bank service's
getAccounts for the current card returns the list l, getAccounts() returns
exactly l; the controller (state, current card, selected account) is unchanged
and the only call into the bank service is that one getAccounts, made with the
current card.  On every session reached from a freshly constructed controller
the current card is the card passed to the most recent insertCardAndVerifyPin
call. -/
theorem C11_getAccounts_returns_bank_list {β : Type} (c : ATMController β) (w : World β)
    (l : List Account)
    (hs : c.m_CurrentState = State.PIN_VERIFIED ∨ c.m_CurrentState = State.ACCOUNT_SELECTED)
    (hl : (c.m_pBankService.getAccounts w.bank c.m_CurrentCard).1 = Answer.returned l) :
    (c.getAccounts w).result = Result.ok l ∧
    (c.getAccounts w).self = c ∧
    (c.getAccounts w).world =
      w.invoked (.getAccounts c.m_CurrentCard)
        (c.m_pBankService.getAccounts w.bank c.m_CurrentCard).2 ∧
    (∀ (svc : IBankService β) (indeterminate : Int) (bank : β) (ops : List Op)
        (c0 : ATMController β),
      ATMController.new (some svc) indeterminate = .ok c0 →
      c0.run { bank := bank, trace := [] } ops = (c, w) →
      lastInsertedCard w.trace = some c.m_CurrentCard) := by
  have hn : ¬ (c.m_CurrentState ≠ State.PIN_VERIFIED ∧
      c.m_CurrentState ≠ State.ACCOUNT_SELECTED) := by tauto
  have e : c.getAccounts w =
      { result := Result.ok l, self := c,
        world := w.invoked (.getAccounts c.m_CurrentCard)
          (c.m_pBankService.getAccounts w.bank c.m_CurrentCard).2 } := by
    simp only [ATMController.getAccounts, hn, if_false, hl]
  rw [e]
  refine ⟨rfl, rfl, rfl, ?_⟩
  intro svc indeterminate bank ops c0 hc hrun
  have hi := cardInv_run ops c0 { bank := bank, trace := [] } (cardInv_fresh svc indeterminate c0 hc)
  rw [hrun] at hi
  rcases hi with hi | ⟨_, hi⟩
  · exact hi
  · rcases hs with hs | hs <;> rw [hs] at hi <;> cases hi

/-- Witness for C11, the test `SuccessfulFullTransactionFlow`: after PIN "1234"
on card "1234" the bank service lists ACCT-001 and ACCT-002; getAccounts returns
these two, and the card queried is the inserted one. -/
theorem C11_getAccounts_returns_bank_list_witness :
    ((m_pAtmController.run World.start [.insertCardAndVerifyPin m_TestCard "1234"]).1.getAccounts
        (m_pAtmController.run World.start [.insertCardAndVerifyPin m_TestCard "1234"]).2).result
      = Result.ok [m_TestAccount1, m_TestAccount2] ∧
    lastInsertedCard
        (m_pAtmController.run World.start [.insertCardAndVerifyPin m_TestCard "1234"]).2.trace
      = some m_TestCard :=
  ⟨(C11_getAccounts_returns_bank_list
      (m_pAtmController.run World.start [.insertCardAndVerifyPin m_TestCard "1234"]).1
      (m_pAtmController.run World.start [.insertCardAndVerifyPin m_TestCard "1234"]).2
      [m_TestAccount1, m_TestAccount2] (Or.inl rfl) rfl).1,
   (C11_getAccounts_returns_bank_list
      (m_pAtmController.run World.start [.insertCardAndVerifyPin m_TestCard "1234"]).1
      (m_pAtmController.run World.start [.insertCardAndVerifyPin m_TestCard "1234"]).2
      [m_TestAccount1, m_TestAccount2] (Or.inl rfl) rfl).2.2.2
      MockBankService 0 () [.insertCardAndVerifyPin m_TestCard "1234"] m_pAtmController rfl rfl⟩

/-! ## Card insertion as a reset -/

/-- Outside state ACCOUNT_SELECTED the three banking operations throw the
state-check runtime_error, whatever the amount. -/
theorem invalidState_of_not_selected {β : Type} (c : ATMController β) (w : World β)
    (amount : Int) (h : c.m_CurrentState ≠ State.ACCOUNT_SELECTED) :
    (c.seeBalance w).result.failsInvalidState = true ∧
    (c.deposit w amount).result.failsInvalidState = true ∧
    (c.withdraw w amount).result.failsInvalidState = true := by
  simp [ATMController.seeBalance, ATMController.deposit, ATMController.withdraw, h,
    Result.failsInvalidState, Error.isInvalidState]

/-- C12: from every prior state, ACCOUNT_SELECTED included, and whatever the
verification gives, after insertCardAndVerifyPin(card, pin) the current card is
card and the state is not ACCOUNT_SELECTED; and after any further calls among
which no selectAccount has returned normally, seeBalance, deposit and withdraw
still throw the state-check runtime_error, for every amount. -/
theorem C12_insert_is_hard_reset {β : Type} (c : ATMController β) (w : World β)
    (card : Card) (pin : String) :
    (c.insertCardAndVerifyPin w card pin).self.m_CurrentCard = card ∧
    (c.insertCardAndVerifyPin w card pin).self.m_CurrentState ≠ State.ACCOUNT_SELECTED ∧
    (∀ (ops : List Op) (amount : Int),
      (∀ e ∈ (c.insertCardAndVerifyPin w card pin).self.events
          (c.insertCardAndVerifyPin w card pin).world ops, e.isSelectOk = false) →
      (((c.insertCardAndVerifyPin w card pin).self.run
          (c.insertCardAndVerifyPin w card pin).world ops).1.seeBalance
        ((c.insertCardAndVerifyPin w card pin).self.run
          (c.insertCardAndVerifyPin w card pin).world ops).2).result.failsInvalidState = true ∧
      (((c.insertCardAndVerifyPin w card pin).self.run
          (c.insertCardAndVerifyPin w card pin).world ops).1.deposit
        ((c.insertCardAndVerifyPin w card pin).self.run
          (c.insertCardAndVerifyPin w card pin).world ops).2 amount).result.failsInvalidState
        = true ∧
      (((c.insertCardAndVerifyPin w card pin).self.run
          (c.insertCardAndVerifyPin w card pin).world ops).1.withdraw
        ((c.insertCardAndVerifyPin w card pin).self.run
          (c.insertCardAndVerifyPin w card pin).world ops).2 amount).result.failsInvalidState
        = true) := by
  have hcard : (c.insertCardAndVerifyPin w card pin).self.m_CurrentCard = card := by
    simp only [ATMController.insertCardAndVerifyPin]
    split
    · rfl
    · split <;> rfl
  have hstate : (c.insertCardAndVerifyPin w card pin).self.m_CurrentState
      ≠ State.ACCOUNT_SELECTED := by
    simp only [ATMController.insertCardAndVerifyPin]
    split
    · simp
    · split <;> simp
  refine ⟨hcard, hstate, ?_⟩
  intro ops amount hn
  have h := (run_without_selection ops _ _ hstate hn).1
  exact invalidState_of_not_selected _ _ amount h

/-- Witness for C12: the fixture session has ACCT-001 selected; the card is
inserted again with the accepted PIN, accounts are listed and the selected
account is read; deposit(50) then throws the state-check error. -/
theorem C12_insert_is_hard_reset_witness :
    (((m_pAtmControllerSelected.insertCardAndVerifyPin World.start m_TestCard "1234").self.run
        (m_pAtmControllerSelected.insertCardAndVerifyPin World.start m_TestCard "1234").world
        [.getAccounts, .getSelectedAccount]).1.deposit
      ((m_pAtmControllerSelected.insertCardAndVerifyPin World.start m_TestCard "1234").self.run
        (m_pAtmControllerSelected.insertCardAndVerifyPin World.start m_TestCard "1234").world
        [.getAccounts, .getSelectedAccount]).2 50).result.failsInvalidState = true :=
  ((C12_insert_is_hard_reset m_pAtmControllerSelected World.start m_TestCard "1234").2.2
    [.getAccounts, .getSelectedAccount] 50 (by decide)).2.1

/-! ## The happy path -/

/-- C13 fails as stated: on a freshly constructed controller, after an accepted
PIN and selectAccount, seeBalance() returns b = 2147483647; deposit(1) is then
approved by the bank service and returns true, and the cached balance is
-2147483648, not b + 1. -/
theorem C13_counterexample_happy_path_overflow :
    ATMController.new (some (mockWithBalance 2147483647)) 0 = Result.ok m_pAtmControllerAtIntMax ∧
    (m_pAtmControllerAtIntMax.run World.start
        [.insertCardAndVerifyPin m_TestCard "1234", .selectAccount m_TestAccount1,
         .seeBalance, .deposit 1]).2.trace =
      [Event.call (.verifyPin m_TestCard "1234"),
       Event.done (.insertCardAndVerifyPin m_TestCard "1234") (.ok (.bool true)),
       Event.done (.selectAccount m_TestAccount1) (.ok .unit),
       Event.call (.getBalance "ACCT-001"),
       Event.done .seeBalance (.ok (.int 2147483647)),
       Event.call (.deposit "ACCT-001" 1),
       Event.done (.deposit 1) (.ok (.bool true))] ∧
    (m_pAtmControllerAtIntMax.run World.start
        [.insertCardAndVerifyPin m_TestCard "1234", .selectAccount m_TestAccount1,
         .seeBalance, .deposit 1]).1.m_SelectedAccount.balance = -2147483648 ∧
    (m_pAtmControllerAtIntMax.run World.start
        [.insertCardAndVerifyPin m_TestCard "1234", .selectAccount m_TestAccount1,
         .seeBalance, .deposit 1]).1.m_SelectedAccount.balance ≠ 2147483647 + 1 := by
  refine ⟨rfl, by decide, by decide, by decide⟩

/-- C13 as amended: on every session (so on every one reached from a fresh
controller), if seeBalance() returns b and is followed by deposit(d) and
withdraw(wd) with d > 0, wd > 0, both approved by the bank service, then both
calls return true, whatever the balances; the cached balance is b + d after the
deposit provided b + d does not exceed the largest int, and it is b + d - wd
after the withdrawal provided in addition b + d - wd is not below the smallest
int. -/
theorem C13_happy_path_balances {β : Type} (c : ATMController β) (w : World β)
    (b d wd : Int) (r3 : Ret Int β) (r4 r5 : Ret Bool β)
    (h3 : r3 = c.seeBalance w)
    (h4 : r4 = r3.self.deposit r3.world d)
    (h5 : r5 = r4.self.withdraw r4.world wd)
    (hb : r3.result = Result.ok b)
    (hd : 0 < d) (hwd : 0 < wd) (hbi : isCInt b)
    (hdep : (c.m_pBankService.deposit r3.world.bank r3.self.m_SelectedAccount.accountId d).1
      = Answer.returned true)
    (hwit : (c.m_pBankService.withdraw r4.world.bank r4.self.m_SelectedAccount.accountId wd).1
      = Answer.returned true) :
    c.m_CurrentState = State.ACCOUNT_SELECTED ∧
    r4.result = Result.ok true ∧
    r5.result = Result.ok true ∧
    (b + d ≤ INT_MAX → r4.self.m_SelectedAccount.balance = b + d) ∧
    (b + d ≤ INT_MAX → INT_MIN ≤ b + d - wd →
      r5.self.m_SelectedAccount.balance = b + d - wd) := by
  have hs : c.m_CurrentState = State.ACCOUNT_SELECTED := by
    by_contra hne
    rw [h3] at hb
    simp [ATMController.seeBalance, hne] at hb
  have hnd : ¬ d ≤ 0 := by omega
  have hnw : ¬ wd ≤ 0 := by omega
  cases hg : (c.m_pBankService.getBalance w.bank c.m_SelectedAccount.accountId).1 with
  | threw =>
    rw [h3] at hb
    simp [ATMController.seeBalance, hs, hg] at hb
  | returned v =>
    have e3 : r3 =
        { result := Result.ok v,
          self := { c with m_SelectedAccount := { c.m_SelectedAccount with balance := v } },
          world := w.invoked (.getBalance c.m_SelectedAccount.accountId)
            (c.m_pBankService.getBalance w.bank c.m_SelectedAccount.accountId).2 } := by
      rw [h3]; simp [ATMController.seeBalance, hs, hg]
    have hv : v = b := by
      rw [e3] at hb; simpa using hb
    subst hv
    have e4 : r4 =
        { result := Result.ok true,
          self := { c with m_SelectedAccount :=
                      { c.m_SelectedAccount with balance := wrapInt (v + d) } },
          world := r3.world.invoked (.deposit c.m_SelectedAccount.accountId d)
            (c.m_pBankService.deposit r3.world.bank c.m_SelectedAccount.accountId d).2 } := by
      rw [e3] at hdep
      rw [h4, e3]
      simp only [] at hdep
      simp [ATMController.deposit, hs, hnd, hdep]
    have e5 : r5 =
        { result := Result.ok true,
          self := { c with m_SelectedAccount :=
                      { c.m_SelectedAccount with balance := wrapInt (wrapInt (v + d) - wd) } },
          world := r4.world.invoked (.withdraw c.m_SelectedAccount.accountId wd)
            (c.m_pBankService.withdraw r4.world.bank c.m_SelectedAccount.accountId wd).2 } := by
      rw [e4] at hwit
      simp only [] at hwit
      rw [h5, e4]
      simp [ATMController.withdraw, hs, hnw, hwit]
    have w4 : v + d ≤ INT_MAX → wrapInt (v + d) = v + d := by
      intro hmax
      apply wrapInt_of_isCInt
      unfold isCInt INT_MIN INT_MAX at *
      omega
    refine ⟨hs, ?_, ?_, ?_, ?_⟩
    · rw [e4]
    · rw [e5]
    · intro hmax
      rw [e4]; exact w4 hmax
    · intro hmax hmin
      rw [e5]
      show wrapInt (wrapInt (v + d) - wd) = v + d - wd
      rw [w4 hmax]
      apply wrapInt_of_isCInt
      unfold isCInt INT_MIN INT_MAX at *
      omega

/-- Witness for C13 as amended, the test `SuccessfulFullTransactionFlow`: from
the fresh fixture controller, PIN "1234" accepted, accounts listed, ACCT-001
selected; seeBalance() is 100, deposit(50) leaves 150, withdraw(30) leaves 120.
A second instance sits at the edge of the int range: after seeBalance() returns
2147483647, deposit(1) and the withdraw(1) after it still both return true. -/
theorem C13_happy_path_balances_witness :
    (m_pAtmController.run World.start
        [.insertCardAndVerifyPin m_TestCard "1234", .getAccounts, .selectAccount m_TestAccount1,
         .seeBalance]).2.trace.getLast? = some (Event.done .seeBalance (.ok (.int 100))) ∧
    (m_pAtmController.run World.start
        [.insertCardAndVerifyPin m_TestCard "1234", .getAccounts, .selectAccount m_TestAccount1,
         .seeBalance, .deposit 50]).1.m_SelectedAccount.balance = 100 + 50 ∧
    (m_pAtmController.run World.start
        [.insertCardAndVerifyPin m_TestCard "1234", .getAccounts, .selectAccount m_TestAccount1,
         .seeBalance, .deposit 50, .withdraw 30]).1.m_SelectedAccount.balance = 100 + 50 - 30 ∧
    ((m_pAtmControllerAtIntMax.run World.start
        [.insertCardAndVerifyPin m_TestCard "1234", .selectAccount m_TestAccount1,
         .seeBalance]).1.deposit
      (m_pAtmControllerAtIntMax.run World.start
        [.insertCardAndVerifyPin m_TestCard "1234", .selectAccount m_TestAccount1,
         .seeBalance]).2 1).result = Result.ok true ∧
    ((m_pAtmControllerAtIntMax.run World.start
        [.insertCardAndVerifyPin m_TestCard "1234", .selectAccount m_TestAccount1,
         .seeBalance, .deposit 1]).1.withdraw
      (m_pAtmControllerAtIntMax.run World.start
        [.insertCardAndVerifyPin m_TestCard "1234", .selectAccount m_TestAccount1,
         .seeBalance, .deposit 1]).2 1).result = Result.ok true :=
  ⟨by decide,
   (C13_happy_path_balances
      (m_pAtmController.run World.start
        [.insertCardAndVerifyPin m_TestCard "1234", .getAccounts,
         .selectAccount m_TestAccount1]).1
      (m_pAtmController.run World.start
        [.insertCardAndVerifyPin m_TestCard "1234", .getAccounts,
         .selectAccount m_TestAccount1]).2
      100 50 30 _ _ _ rfl rfl rfl rfl (by decide) (by decide) (by decide) rfl rfl).2.2.2.1
      (by decide),
   (C13_happy_path_balances
      (m_pAtmController.run World.start
        [.insertCardAndVerifyPin m_TestCard "1234", .getAccounts,
         .selectAccount m_TestAccount1]).1
      (m_pAtmController.run World.start
        [.insertCardAndVerifyPin m_TestCard "1234", .getAccounts,
         .selectAccount m_TestAccount1]).2
      100 50 30 _ _ _ rfl rfl rfl rfl (by decide) (by decide) (by decide) rfl rfl).2.2.2.2
      (by decide) (by decide),
   (C13_happy_path_balances
      (m_pAtmControllerAtIntMax.run World.start
        [.insertCardAndVerifyPin m_TestCard "1234", .selectAccount m_TestAccount1]).1
      (m_pAtmControllerAtIntMax.run World.start
        [.insertCardAndVerifyPin m_TestCard "1234", .selectAccount m_TestAccount1]).2
      2147483647 1 1 _ _ _ rfl rfl rfl rfl (by decide) (by decide) (by decide) rfl rfl).2.1,
   (C13_happy_path_balances
      (m_pAtmControllerAtIntMax.run World.start
        [.insertCardAndVerifyPin m_TestCard "1234", .selectAccount m_TestAccount1]).1
      (m_pAtmControllerAtIntMax.run World.start
        [.insertCardAndVerifyPin m_TestCard "1234", .selectAccount m_TestAccount1]).2
      2147483647 1 1 _ _ _ rfl rfl rfl rfl (by decide) (by decide) (by decide) rfl rfl).2.2.1⟩

/-! ## Delegation of deposit and withdrawal -/

/-- C14 fails as stated in its last clause: a session reached from a fresh
controller holds the cached balance -2147483648 (the smallest int); withdraw(1)
is larger than the cached balance, the bank service approves it and the call
returns true, and the cached balance is then 2147483647, which is not negative. -/
theorem C14_counterexample_withdraw_underflow :
    (m_pAtmController.run World.start
        [.insertCardAndVerifyPin m_TestCard "1234",
         .selectAccount { accountId := "ACCT-001", balance := -2147483648 },
         .withdraw 1]).2.trace =
      [Event.call (.verifyPin m_TestCard "1234"),
       Event.done (.insertCardAndVerifyPin m_TestCard "1234") (.ok (.bool true)),
       Event.done (.selectAccount { accountId := "ACCT-001", balance := -2147483648 })
         (.ok .unit),
       Event.call (.withdraw "ACCT-001" 1),
       Event.done (.withdraw 1) (.ok (.bool true))] ∧
    (-2147483648 : Int) < 1 ∧
    ¬ ((m_pAtmController.run World.start
        [.insertCardAndVerifyPin m_TestCard "1234",
         .selectAccount { accountId := "ACCT-001", balance := -2147483648 },
         .withdraw 1]).1.m_SelectedAccount.balance < 0) := by
  refine ⟨by decide, by decide, by decide⟩

/-- C14 as amended: in state ACCOUNT_SELECTED, for every amount > 0 and every
cached balance, deposit(amount) and withdraw(amount) make exactly one call into
the bank service, the corresponding one, with the selected accountId and the
unmodified amount, and hand back exactly what it answered (its value, or its
exception).  withdraw makes no local balance check: an approved withdrawal
larger than the cached balance b leaves the cached balance b - amount, which is
negative, provided b - amount is not below the smallest int. -/
theorem C14_deposit_withdraw_delegate_once {β : Type} (c : ATMController β) (w : World β)
    (amount : Int) (hs : c.m_CurrentState = State.ACCOUNT_SELECTED) (hpos : 0 < amount) :
    (c.deposit w amount).world =
      w.invoked (.deposit c.m_SelectedAccount.accountId amount)
        (c.m_pBankService.deposit w.bank c.m_SelectedAccount.accountId amount).2 ∧
    (c.deposit w amount).world.trace =
      w.trace ++ [Event.call (.deposit c.m_SelectedAccount.accountId amount)] ∧
    (∀ v, (c.m_pBankService.deposit w.bank c.m_SelectedAccount.accountId amount).1
        = Answer.returned v → (c.deposit w amount).result = Result.ok v) ∧
    ((c.m_pBankService.deposit w.bank c.m_SelectedAccount.accountId amount).1 = Answer.threw →
      (c.deposit w amount).result = Result.error Error.bank_exception) ∧
    (c.withdraw w amount).world =
      w.invoked (.withdraw c.m_SelectedAccount.accountId amount)
        (c.m_pBankService.withdraw w.bank c.m_SelectedAccount.accountId amount).2 ∧
    (c.withdraw w amount).world.trace =
      w.trace ++ [Event.call (.withdraw c.m_SelectedAccount.accountId amount)] ∧
    (∀ v, (c.m_pBankService.withdraw w.bank c.m_SelectedAccount.accountId amount).1
        = Answer.returned v → (c.withdraw w amount).result = Result.ok v) ∧
    ((c.m_pBankService.withdraw w.bank c.m_SelectedAccount.accountId amount).1 = Answer.threw →
      (c.withdraw w amount).result = Result.error Error.bank_exception) ∧
    ((c.m_pBankService.withdraw w.bank c.m_SelectedAccount.accountId amount).1
        = Answer.returned true →
      c.m_SelectedAccount.balance < amount →
      INT_MIN ≤ c.m_SelectedAccount.balance - amount →
      (c.withdraw w amount).self.m_SelectedAccount.balance = c.m_SelectedAccount.balance - amount ∧
      (c.withdraw w amount).self.m_SelectedAccount.balance < 0) := by
  have hna : ¬ amount ≤ 0 := by omega
  refine ⟨?_, ?_, ?_, ?_, ?_, ?_, ?_, ?_, ?_⟩
  · simp only [ATMController.deposit, hs, ne_eq, not_true_eq_false, if_false, hna]
    split
    · rfl
    · split <;> rfl
  · simp only [ATMController.deposit, hs, ne_eq, not_true_eq_false, if_false, hna]
    split
    · rfl
    · split <;> rfl
  · intro v hv
    cases v <;> simp [ATMController.deposit, hs, hna, hv]
  · intro hv
    simp [ATMController.deposit, hs, hna, hv]
  · simp only [ATMController.withdraw, hs, ne_eq, not_true_eq_false, if_false, hna]
    split
    · rfl
    · split <;> rfl
  · simp only [ATMController.withdraw, hs, ne_eq, not_true_eq_false, if_false, hna]
    split
    · rfl
    · split <;> rfl
  · intro v hv
    cases v <;> simp [ATMController.withdraw, hs, hna, hv]
  · intro hv
    simp [ATMController.withdraw, hs, hna, hv]
  · intro hv hlt hmin
    have hw : wrapInt (c.m_SelectedAccount.balance - amount)
        = c.m_SelectedAccount.balance - amount := by
      apply wrapInt_of_isCInt
      unfold isCInt INT_MIN INT_MAX at *
      omega
    have e : (c.withdraw w amount).self.m_SelectedAccount.balance
        = c.m_SelectedAccount.balance - amount := by
      simp [ATMController.withdraw, hs, hna, hv, hw]
    rw [e]
    exact ⟨rfl, by omega⟩

/-- Witness for C14 as amended: on a session with ACCT-001 selected and cached
balance 40, withdraw(100) is approved by the bank service, reaches it once with
("ACCT-001", 100) and leaves the cached balance -60. -/
theorem C14_deposit_withdraw_delegate_once_witness :
    (ATMController.withdraw
        { m_pAtmControllerSelected with
          m_SelectedAccount := { accountId := "ACCT-001", balance := 40 } }
        World.start 100).world.trace = [Event.call (.withdraw "ACCT-001" 100)] ∧
    (ATMController.withdraw
        { m_pAtmControllerSelected with
          m_SelectedAccount := { accountId := "ACCT-001", balance := 40 } }
        World.start 100).self.m_SelectedAccount.balance = 40 - 100 :=
  ⟨(C14_deposit_withdraw_delegate_once
      { m_pAtmControllerSelected with
        m_SelectedAccount := { accountId := "ACCT-001", balance := 40 } }
      World.start 100 rfl (by decide)).2.2.2.2.2.1,
   ((C14_deposit_withdraw_delegate_once
      { m_pAtmControllerSelected with
        m_SelectedAccount := { accountId := "ACCT-001", balance := 40 } }
      World.start 100 rfl (by decide)).2.2.2.2.2.2.2.2 rfl (by decide) (by decide)).1⟩

/-! ## Reading the selected account -/

/-- In every state getSelectedAccount returns the cached account, makes no call
into the bank service and changes nothing; it never throws. -/
theorem getSelectedAccount_is_pure_read {β : Type} (c : ATMController β) (w : World β) :
    (c.getSelectedAccount w).result = Result.ok c.m_SelectedAccount ∧
    (c.getSelectedAccount w).self = c ∧
    (c.getSelectedAccount w).world = w :=
  ⟨rfl, rfl, rfl⟩

/-- On a controller built by the constructor, as long as no selectAccount has
returned normally the cached account is the one the constructor left: an empty
accountId and the never-initialised balance. -/
theorem never_selected_keeps_constructed_account {β : Type} (svc : IBankService β)
    (indeterminate : Int) (bank : β) (ops : List Op) (c0 : ATMController β)
    (hc : ATMController.new (some svc) indeterminate = .ok c0)
    (hn : ∀ e ∈ (c0.run { bank := bank, trace := [] } ops).2.trace, e.isSelectOk = false) :
    (c0.run { bank := bank, trace := [] } ops).1.m_SelectedAccount =
      { accountId := "", balance := indeterminate } := by
  simp only [ATMController.new, Result.ok.injEq] at hc
  subst hc
  have h := run_without_selection ops
    ({ m_CurrentState := State.IDLE, m_pBankService := svc, m_CurrentCard := { cardNumber := "" },
       m_SelectedAccount := { accountId := "", balance := indeterminate } } : ATMController β)
    { bank := bank, trace := [] } (by simp)
    (by simpa [ATMController.events] using hn)
  exact h.2

/-- C15 evaluated on the code: two controllers constructed the same way
on the same bank service, differing only in what the uninitialised balance
happens to hold (0 and 42); getSelectedAccount() before any selectAccount returns
an empty accountId in both, with balance 0 in one and balance 42 in the other,
also after other operations.  There is no default balance. -/
theorem C15_default_balance_is_uninitialised :
    (∃ c1 c2 : ATMController Unit,
      ATMController.new (some MockBankService) 0 = Result.ok c1 ∧
      ATMController.new (some MockBankService) 42 = Result.ok c2 ∧
      (c1.getSelectedAccount World.start).result
        = Result.ok { accountId := "", balance := 0 } ∧
      (c2.getSelectedAccount World.start).result
        = Result.ok { accountId := "", balance := 42 } ∧
      ((c2.run World.start [.insertCardAndVerifyPin m_TestCard "1234", .getAccounts,
            .deposit 5]).1.getSelectedAccount
          (c2.run World.start [.insertCardAndVerifyPin m_TestCard "1234", .getAccounts,
            .deposit 5]).2).result
        = Result.ok { accountId := "", balance := 42 }) :=
  ⟨_, _, rfl, rfl, rfl, rfl, by decide⟩

/-! ## Atomicity of rejection -/

/-- C16: whenever getAccounts, selectAccount, seeBalance, deposit or withdraw
throws the state-check runtime_error, the controller (state, current card,
selected account) and the world (bank state, calls made) are exactly what they were
before the call.  The rejection is recoverable: on every session that is in a
permitted state the same call does not throw it, selectAccount returns normally
and the other four return normally whenever the bank-service call they make
comes back with a value. -/
theorem C16_rejection_is_atomic {β : Type} (c : ATMController β) (w : World β)
    (account : Account) (amount : Int) :
    ((c.getAccounts w).result.failsInvalidState = true →
      (c.getAccounts w).self = c ∧ (c.getAccounts w).world = w) ∧
    ((c.selectAccount w account).result.failsInvalidState = true →
      (c.selectAccount w account).self = c ∧ (c.selectAccount w account).world = w) ∧
    ((c.seeBalance w).result.failsInvalidState = true →
      (c.seeBalance w).self = c ∧ (c.seeBalance w).world = w) ∧
    ((c.deposit w amount).result.failsInvalidState = true →
      (c.deposit w amount).self = c ∧ (c.deposit w amount).world = w) ∧
    ((c.withdraw w amount).result.failsInvalidState = true →
      (c.withdraw w amount).self = c ∧ (c.withdraw w amount).world = w) ∧
    (∀ (c1 : ATMController β) (w1 : World β),
      (c1.m_CurrentState = State.PIN_VERIFIED ∨ c1.m_CurrentState = State.ACCOUNT_SELECTED) →
      (c1.getAccounts w1).result.failsInvalidState = false ∧
      ((c1.m_pBankService.getAccounts w1.bank c1.m_CurrentCard).1.returns = true →
        (c1.getAccounts w1).result.succeeds = true) ∧
      (c1.selectAccount w1 account).result.succeeds = true) ∧
    (∀ (c1 : ATMController β) (w1 : World β),
      c1.m_CurrentState = State.ACCOUNT_SELECTED →
      (c1.seeBalance w1).result.failsInvalidState = false ∧
      (c1.deposit w1 amount).result.failsInvalidState = false ∧
      (c1.withdraw w1 amount).result.failsInvalidState = false ∧
      ((c1.m_pBankService.getBalance w1.bank c1.m_SelectedAccount.accountId).1.returns = true →
        (c1.seeBalance w1).result.succeeds = true) ∧
      ((c1.m_pBankService.deposit w1.bank c1.m_SelectedAccount.accountId amount).1.returns = true →
        (c1.deposit w1 amount).result.succeeds = true) ∧
      ((c1.m_pBankService.withdraw w1.bank c1.m_SelectedAccount.accountId amount).1.returns = true →
        (c1.withdraw w1 amount).result.succeeds = true)) := by
  refine ⟨?_, ?_, ?_, ?_, ?_, ?_, ?_⟩
  · simp only [ATMController.getAccounts]
    (repeat' split) <;> simp [Result.failsInvalidState, Error.isInvalidState]
  · simp only [ATMController.selectAccount]
    (repeat' split) <;> simp [Result.failsInvalidState, Error.isInvalidState]
  · simp only [ATMController.seeBalance]
    (repeat' split) <;> simp [Result.failsInvalidState, Error.isInvalidState]
  · simp only [ATMController.deposit]
    (repeat' split) <;> simp [Result.failsInvalidState, Error.isInvalidState]
  · simp only [ATMController.withdraw]
    (repeat' split) <;> simp [Result.failsInvalidState, Error.isInvalidState]
  · intro c1 w1 hs
    have hn : ¬ (c1.m_CurrentState ≠ State.PIN_VERIFIED ∧
        c1.m_CurrentState ≠ State.ACCOUNT_SELECTED) := by tauto
    simp only [ATMController.getAccounts, ATMController.selectAccount, hn, if_false]
    refine ⟨?_, ?_, rfl⟩
    · split <;> rfl
    · intro hr
      split
      · rename_i h; rw [h] at hr; simp [Answer.returns] at hr
      · rfl
  · intro c1 w1 hs
    simp only [ATMController.seeBalance, ATMController.deposit, ATMController.withdraw, hs,
      ne_eq, not_true_eq_false, if_false]
    refine ⟨?_, ?_, ?_, ?_, ?_, ?_⟩
    · split <;> rfl
    · (repeat' split) <;> rfl
    · (repeat' split) <;> rfl
    · intro hr
      split
      · rename_i h; rw [h] at hr; simp [Answer.returns] at hr
      · rfl
    · intro hr
      split
      · rfl
      · split
        · rename_i h; rw [h] at hr; simp [Answer.returns] at hr
        · split <;> rfl
    · intro hr
      split
      · rfl
      · split
        · rename_i h; rw [h] at hr; simp [Answer.returns] at hr
        · split <;> rfl

/-- Witness for C16: on the fresh fixture controller withdraw(30) throws the
state-check error and leaves controller and world as they were; after the PIN
is accepted and ACCT-001 selected, the same withdraw(30) returns normally. -/
theorem C16_rejection_is_atomic_witness :
    ((m_pAtmController.withdraw World.start 30).self.m_CurrentState = State.IDLE ∧
      (m_pAtmController.withdraw World.start 30).world.trace = []) ∧
    ((m_pAtmController.run World.start
        [.insertCardAndVerifyPin m_TestCard "1234", .selectAccount m_TestAccount1]).1.withdraw
      (m_pAtmController.run World.start
        [.insertCardAndVerifyPin m_TestCard "1234", .selectAccount m_TestAccount1]).2
      30).result.succeeds = true :=
  ⟨⟨congrArg (fun s => s.m_CurrentState)
      ((C16_rejection_is_atomic m_pAtmController World.start m_TestAccount1 30).2.2.2.2.1 rfl).1,
    congrArg World.trace
      ((C16_rejection_is_atomic m_pAtmController World.start m_TestAccount1 30).2.2.2.2.1 rfl).2⟩,
   ((C16_rejection_is_atomic m_pAtmController World.start m_TestAccount1 30).2.2.2.2.2.2
      (m_pAtmController.run World.start
        [.insertCardAndVerifyPin m_TestCard "1234", .selectAccount m_TestAccount1]).1
      (m_pAtmController.run World.start
        [.insertCardAndVerifyPin m_TestCard "1234", .selectAccount m_TestAccount1]).2
      rfl).2.2.2.2.2 rfl⟩

/-! ## The reachable-state invariant -/

/-- Dropping a last entry that is not a completed card insertion keeps the PIN
verified. -/
theorem pinVerifiedIn_of_snoc {t : List Event} {e : Event} (h : PinVerifiedIn (t ++ [e]))
    (he : e.isInsert = false) : PinVerifiedIn t := by
  obtain ⟨t1, t2, card, pin, heq, h2⟩ := h
  rcases List.eq_nil_or_concat t2 with rfl | ⟨a, x, rfl⟩
  · have h1 := List.append_inj_right' heq rfl
    simp at h1
    subst h1
    simp [Event.isInsert] at he
  · have e1 : t1 ++ Event.done (.insertCardAndVerifyPin card pin) (.ok (.bool true)) :: a.concat x
        = (t1 ++ Event.done (.insertCardAndVerifyPin card pin) (.ok (.bool true)) :: a) ++ [x] := by
      simp
    rw [e1] at heq
    have h1 := List.append_inj_left' heq rfl
    refine ⟨t1, a, card, pin, h1, ?_⟩
    intro y hy
    exact h2 y (by simp [hy])

/-- When the last entry is a completed card insertion and the PIN is verified,
that insertion returned true. -/
theorem pinVerifiedIn_snoc_insert {t : List Event} {card : Card} {pin : String}
    {r : Result Value}
    (h : PinVerifiedIn (t ++ [Event.done (.insertCardAndVerifyPin card pin) r])) :
    r = Result.ok (Value.bool true) := by
  obtain ⟨t1, t2, card1, pin1, heq, h2⟩ := h
  rcases List.eq_nil_or_concat t2 with rfl | ⟨a, x, rfl⟩
  · have h1 := List.append_inj_right' heq rfl
    simp at h1
    exact h1.2
  · have e1 : t1 ++ Event.done (.insertCardAndVerifyPin card1 pin1) (.ok (.bool true)) :: a.concat x
        = (t1 ++ Event.done (.insertCardAndVerifyPin card1 pin1) (.ok (.bool true)) :: a) ++ [x] := by
      simp
    rw [e1] at heq
    have h1 := List.append_inj_right' heq rfl
    simp at h1
    have hx := h2 x (by simp)
    rw [← h1] at hx
    simp [Event.isInsert] at hx

/-- The scan of the history computes the declarative predicate. -/
theorem pinVerifiedIn_iff_scan (t : List Event) :
    PinVerifiedIn t ↔ lastInsertReturnedTrue t = true := by
  induction t using List.reverseRecOn with
  | nil =>
    constructor
    · rintro ⟨t1, t2, card, pin, heq, _⟩
      simp at heq
    · intro h
      simp [lastInsertReturnedTrue] at h
  | append_singleton t e ih =>
    by_cases he : e.isInsert = true
    · cases e with
      | call k => simp [Event.isInsert] at he
      | done op r =>
        cases op <;> try (simp [Event.isInsert] at he)
        rename_i card pin
        constructor
        · intro h
          have hr := pinVerifiedIn_snoc_insert h
          simp [lastInsertReturnedTrue, List.foldl_append, hr]
        · intro h
          simp [lastInsertReturnedTrue, List.foldl_append] at h
          subst h
          exact pinVerifiedIn_insert t card pin
    · have he1 : e.isInsert = false := by simpa using he
      have hscan : lastInsertReturnedTrue (t ++ [e]) = lastInsertReturnedTrue t := by
        cases e with
        | call k => simp [lastInsertReturnedTrue, List.foldl_append]
        | done op r =>
          cases op <;> simp_all [lastInsertReturnedTrue, List.foldl_append, Event.isInsert]
      rw [hscan, ← ih]
      exact ⟨fun h => pinVerifiedIn_of_snoc h he1, fun h => pinVerifiedIn_snoc h he1⟩

/-- Every public member function preserves the reachable-state invariant. -/
theorem stateInv_step {β : Type} (c : ATMController β) (w : World β) (op : Op)
    (h : StateInv c w.trace) : StateInv (c.step w op).1 (c.step w op).2.trace := by
  unfold StateInv at h ⊢
  obtain ⟨h1, h2⟩ := h
  cases op <;>
    simp only [ATMController.step, ATMController.insertCardAndVerifyPin, ATMController.getAccounts,
      ATMController.selectAccount, ATMController.getSelectedAccount, ATMController.seeBalance,
      ATMController.deposit, ATMController.withdraw, Ret.finish, World.invoked] <;>
    (repeat' split) <;>
    simp_all [lastInsertReturnedTrue, List.foldl_append, Event.isBankException, Result.map]
  · exact ⟨_, Or.inr (Or.inr rfl), rfl⟩
  · exact h1.mp (by tauto)

/-- Every finite sequence of calls preserves the reachable-state invariant. -/
theorem stateInv_run {β : Type} (ops : List Op) :
    ∀ (c : ATMController β) (w : World β), StateInv c w.trace →
      StateInv (c.run w ops).1 (c.run w ops).2.trace := by
  induction ops with
  | nil => intro c w h; exact h
  | cons op ops ih =>
    intro c w h
    exact ih _ _ (stateInv_step c w op h)

/-- A freshly constructed controller with an empty trace satisfies the
reachable-state invariant. -/
theorem stateInv_fresh {β : Type} (svc : IBankService β) (indeterminate : Int)
    (c : ATMController β) (h : ATMController.new (some svc) indeterminate = .ok c) :
    StateInv c [] := by
  simp only [ATMController.new, Result.ok.injEq] at h
  subst h
  simp [StateInv, lastInsertReturnedTrue]

/-- Running a sequence of calls is running its first part and then the rest. -/
theorem run_append {β : Type} (ops1 ops2 : List Op) :
    ∀ (c : ATMController β) (w : World β),
      c.run w (ops1 ++ ops2) = (c.run w ops1).1.run (c.run w ops1).2 ops2 := by
  induction ops1 with
  | nil => intro c w; rfl
  | cons op ops ih =>
    intro c w
    simp only [List.cons_append, ATMController.run]
    exact ih _ _

/-- C17: take any sequence of operations on a freshly constructed controller in
which every bank-service call returns, and look at the state after any initial
part of it: the state is IDLE, PIN_VERIFIED or ACCOUNT_SELECTED, never
CARD_INSERTED, and it is PIN_VERIFIED or ACCOUNT_SELECTED exactly when the most
recent completed insertCardAndVerifyPin returned true. -/
theorem C17_reachable_state_invariant {β : Type} (svc : IBankService β) (indeterminate : Int)
    (bank : β) (c0 : ATMController β)
    (hc : ATMController.new (some svc) indeterminate = .ok c0)
    (ops rest : List Op)
    (hret : ∀ e ∈ (c0.run { bank := bank, trace := [] } (ops ++ rest)).2.trace,
      e.isBankException = false) :
    ((c0.run { bank := bank, trace := [] } ops).1.m_CurrentState = State.IDLE ∨
      (c0.run { bank := bank, trace := [] } ops).1.m_CurrentState = State.PIN_VERIFIED ∨
      (c0.run { bank := bank, trace := [] } ops).1.m_CurrentState = State.ACCOUNT_SELECTED) ∧
    (c0.run { bank := bank, trace := [] } ops).1.m_CurrentState ≠ State.CARD_INSERTED ∧
    (((c0.run { bank := bank, trace := [] } ops).1.m_CurrentState = State.PIN_VERIFIED ∨
      (c0.run { bank := bank, trace := [] } ops).1.m_CurrentState = State.ACCOUNT_SELECTED) ↔
      PinVerifiedIn (c0.run { bank := bank, trace := [] } ops).2.trace) := by
  have hi := stateInv_run ops c0 { bank := bank, trace := [] } (stateInv_fresh svc indeterminate c0 hc)
  obtain ⟨h1, h2⟩ := hi
  have hpre : ∀ e ∈ (c0.run { bank := bank, trace := [] } ops).2.trace,
      e.isBankException = false := by
    intro e he
    apply hret e
    rw [run_append, run_trace_eq]
    exact List.mem_append_left _ he
  have hne := h2 hpre
  refine ⟨?_, hne, ?_⟩
  · cases hst : (c0.run { bank := bank, trace := [] } ops).1.m_CurrentState with
    | IDLE => exact Or.inl rfl
    | CARD_INSERTED => exact absurd hst hne
    | PIN_VERIFIED => exact Or.inr (Or.inl rfl)
    | ACCOUNT_SELECTED => exact Or.inr (Or.inr rfl)
  · rw [pinVerifiedIn_iff_scan]
    exact h1

/-- Witness for C17 on the fixture: PIN accepted, account selected, balance
read, then a rejected PIN; no bank-service call throws.  After the first two
operations the state is not CARD_INSERTED. -/
theorem C17_reachable_state_invariant_witness :
    (m_pAtmController.run World.start
        [.insertCardAndVerifyPin m_TestCard "1234",
         .selectAccount m_TestAccount1]).1.m_CurrentState ≠ State.CARD_INSERTED :=
  (C17_reachable_state_invariant MockBankService 0 () m_pAtmController rfl
    [.insertCardAndVerifyPin m_TestCard "1234", .selectAccount m_TestAccount1]
    [.seeBalance, .insertCardAndVerifyPin m_TestCard "9999"] (by decide)).2.1

/-- When the bank service's verifyPin throws, the exception leaves
insertCardAndVerifyPin with the state still CARD_INSERTED: this is why the
reachable-state invariant asks for bank-service calls that return. -/
theorem card_inserted_after_throwing_verifyPin {β : Type} (c : ATMController β) (w : World β)
    (card : Card) (pin : String)
    (h : (c.m_pBankService.verifyPin w.bank card pin).1 = Answer.threw) :
    (c.insertCardAndVerifyPin w card pin).result = Result.error Error.bank_exception ∧
    (c.insertCardAndVerifyPin w card pin).self.m_CurrentState = State.CARD_INSERTED := by
  simp [ATMController.insertCardAndVerifyPin, h]

/-! ## What card insertion keeps and what it forgets -/

/-- C18: for every prior state, card, pin and verification outcome,
insertCardAndVerifyPin leaves the cached selected account untouched, so
getSelectedAccount() right after the call returns what it returned right before
it; in particular an account a selected in an earlier session is still returned
after a different card is inserted. -/
theorem C18_insert_keeps_selected_account {β : Type} (c : ATMController β) (w : World β)
    (card : Card) (pin : String) :
    (c.insertCardAndVerifyPin w card pin).self.m_SelectedAccount = c.m_SelectedAccount ∧
    ((c.insertCardAndVerifyPin w card pin).self.getSelectedAccount
        (c.insertCardAndVerifyPin w card pin).world).result
      = (c.getSelectedAccount w).result ∧
    (∀ (a : Account),
      (c.m_CurrentState = State.PIN_VERIFIED ∨ c.m_CurrentState = State.ACCOUNT_SELECTED) →
      (((c.selectAccount w a).self.insertCardAndVerifyPin (c.selectAccount w a).world
          card pin).self.getSelectedAccount
        ((c.selectAccount w a).self.insertCardAndVerifyPin (c.selectAccount w a).world
          card pin).world).result = Result.ok a) := by
  have key : ∀ (c1 : ATMController β) (w1 : World β),
      (c1.insertCardAndVerifyPin w1 card pin).self.m_SelectedAccount = c1.m_SelectedAccount := by
    intro c1 w1
    simp only [ATMController.insertCardAndVerifyPin]
    split
    · rfl
    · split <;> rfl
  refine ⟨key c w, ?_, ?_⟩
  · simp only [ATMController.getSelectedAccount, key c w]
  · intro a hs
    have hn : ¬ (c.m_CurrentState ≠ State.PIN_VERIFIED ∧
        c.m_CurrentState ≠ State.ACCOUNT_SELECTED) := by tauto
    simp only [ATMController.getSelectedAccount, key]
    simp only [ATMController.selectAccount, hn, if_false]

/-- Witness for C18: on the fixture session with ACCT-001 selected, another
card is inserted with a rejected PIN; getSelectedAccount still returns ACCT-001
with its cached balance 100. -/
theorem C18_insert_keeps_selected_account_witness :
    ((m_pAtmControllerSelected.insertCardAndVerifyPin World.start { cardNumber := "5678" }
        "9999").self.getSelectedAccount
      (m_pAtmControllerSelected.insertCardAndVerifyPin World.start { cardNumber := "5678" }
        "9999").world).result = Result.ok m_TestAccount1 :=
  (C18_insert_keeps_selected_account m_pAtmControllerSelected World.start
    { cardNumber := "5678" } "9999").2.1

/-- The world after insertCardAndVerifyPin: one verifyPin call was made. -/
theorem insert_world {β : Type} (c : ATMController β) (w : World β) (card : Card)
    (pin : String) :
    (c.insertCardAndVerifyPin w card pin).world =
      w.invoked (.verifyPin card pin) (c.m_pBankService.verifyPin w.bank card pin).2 := by
  simp only [ATMController.insertCardAndVerifyPin]
  split
  · rfl
  · split <;> rfl

/-- The entries a sequence of calls adds do not depend on the trace so far. -/
theorem events_eq {β : Type} (c : ATMController β) (w : World β) (ops : List Op) :
    c.events w ops = (c.run { bank := w.bank, trace := [] } ops).2.trace := by
  unfold ATMController.events
  rw [(run_trace_split ops c w).2.2]
  simp

/-- C19: for every prior session, every card and every two pins p1 and p2 to
which the bank service's verifyPin gives the same answer, the two calls
insertCardAndVerifyPin(card, p1) and insertCardAndVerifyPin(card, p2) give the
same result and leave the same controller (state, current card, selected
account), so that every later sequence of operations acts identically on the
two controllers in every world; and when the bank service is also left in the
same state by the two verifyPin calls, the two runs continue with the same
controllers, the same bank states and the same trace entries. -/
theorem C19_pin_is_not_retained {β : Type} (c : ATMController β) (w : World β) (card : Card)
    (p1 p2 : String)
    (hsame : (c.m_pBankService.verifyPin w.bank card p1).1
      = (c.m_pBankService.verifyPin w.bank card p2).1) :
    (c.insertCardAndVerifyPin w card p1).result = (c.insertCardAndVerifyPin w card p2).result ∧
    (c.insertCardAndVerifyPin w card p1).self = (c.insertCardAndVerifyPin w card p2).self ∧
    (∀ (w1 : World β) (ops : List Op),
      (c.insertCardAndVerifyPin w card p1).self.run w1 ops
        = (c.insertCardAndVerifyPin w card p2).self.run w1 ops) ∧
    ((c.m_pBankService.verifyPin w.bank card p1).2 = (c.m_pBankService.verifyPin w.bank card p2).2 →
      ∀ (ops : List Op),
        ((c.insertCardAndVerifyPin w card p1).self.run
            (c.insertCardAndVerifyPin w card p1).world ops).1
          = ((c.insertCardAndVerifyPin w card p2).self.run
            (c.insertCardAndVerifyPin w card p2).world ops).1 ∧
        ((c.insertCardAndVerifyPin w card p1).self.run
            (c.insertCardAndVerifyPin w card p1).world ops).2.bank
          = ((c.insertCardAndVerifyPin w card p2).self.run
            (c.insertCardAndVerifyPin w card p2).world ops).2.bank ∧
        (c.insertCardAndVerifyPin w card p1).self.events
            (c.insertCardAndVerifyPin w card p1).world ops
          = (c.insertCardAndVerifyPin w card p2).self.events
            (c.insertCardAndVerifyPin w card p2).world ops) := by
  have hres : (c.insertCardAndVerifyPin w card p1).result
      = (c.insertCardAndVerifyPin w card p2).result := by
    cases h2 : (c.m_pBankService.verifyPin w.bank card p2).1 with
    | threw => simp [ATMController.insertCardAndVerifyPin, hsame.trans h2, h2]
    | returned v => cases v <;> simp [ATMController.insertCardAndVerifyPin, hsame.trans h2, h2]
  have hself : (c.insertCardAndVerifyPin w card p1).self
      = (c.insertCardAndVerifyPin w card p2).self := by
    cases h2 : (c.m_pBankService.verifyPin w.bank card p2).1 with
    | threw => simp [ATMController.insertCardAndVerifyPin, hsame.trans h2, h2]
    | returned v => cases v <;> simp [ATMController.insertCardAndVerifyPin, hsame.trans h2, h2]
  refine ⟨hres, hself, ?_, ?_⟩
  · intro w1 ops
    rw [hself]
  · intro hbank ops
    have hb : (c.insertCardAndVerifyPin w card p1).world.bank
        = (c.insertCardAndVerifyPin w card p2).world.bank := by
      rw [insert_world, insert_world]
      exact hbank
    have s1 := run_trace_split ops (c.insertCardAndVerifyPin w card p1).self
      (c.insertCardAndVerifyPin w card p1).world
    have s2 := run_trace_split ops (c.insertCardAndVerifyPin w card p2).self
      (c.insertCardAndVerifyPin w card p2).world
    refine ⟨?_, ?_, ?_⟩
    · rw [s1.1, s2.1, hself, hb]
    · rw [s1.2.1, s2.2.1, hself, hb]
    · rw [events_eq, events_eq, hself, hb]

/-- Witness for C19 on the fixture: the pins "9999" and "0000" are both
rejected; the two calls give the same result and leave the same state. -/
theorem C19_pin_is_not_retained_witness :
    (m_pAtmControllerSelected.insertCardAndVerifyPin World.start m_TestCard "9999").result
      = (m_pAtmControllerSelected.insertCardAndVerifyPin World.start m_TestCard "0000").result ∧
    (m_pAtmControllerSelected.insertCardAndVerifyPin World.start m_TestCard
        "9999").self.m_CurrentState
      = (m_pAtmControllerSelected.insertCardAndVerifyPin World.start m_TestCard
        "0000").self.m_CurrentState :=
  ⟨(C19_pin_is_not_retained m_pAtmControllerSelected World.start m_TestCard "9999" "0000" rfl).1,
   congrArg (fun s => s.m_CurrentState)
    (C19_pin_is_not_retained m_pAtmControllerSelected World.start m_TestCard "9999" "0000"
      rfl).2.1⟩
